import Mathlib

/-!
# Fluid3DCalculator: buffer rotation and dispatch order

A shallow embedding of `Fluid3DCalculator.cpp`.  The calculator is a record of
its members; the device context is observed through the sequence of calls the
calculator makes on it (`Event`), kept in the field `log`.  Textures are
identified by handles; the numeric content of a texture is not modelled (the
compute shaders are not part of the sources), only which texture every view
refers to.

Conventions:
* `float` values are rationals (`ℚ`): equality is reflexive, there is no NaN.
* Device calls that can fail are decided by a `Device` oracle; the creation of
  a view of a null texture always fails.
* A method that can throw returns `Except String`.
* Members are assumed to be valid objects whenever a method dereferences them.
-/

namespace Fluid3D

/-! ## Slots and handles -/

/-- Identity of a texture created by the device. -/
abbrev Handle := Nat

/-- Slot index `#define READ 0`. -/
def READ {n : Nat} : Fin (n + 1) := 0
/-- Slot index `#define WRITE 1`. -/
def WRITE {n : Nat} : Fin (n + 2) := 1
/-- Slot index `#define WRITE2 2`. -/
def WRITE2 {n : Nat} : Fin (n + 3) := 2
/-- Slot index `#define WRITE3 3`. -/
def WRITE3 {n : Nat} : Fin (n + 4) := 3

/-- The pair of views `ShaderParams` holds: each view is either null (`none`)
or a view of the texture with the given handle. -/
structure ShaderParams where
  mSRV : Option Handle
  mUAV : Option Handle
  deriving DecidableEq, Repr

/-- A default-constructed `ShaderParams`: both smart pointers are null. -/
def ShaderParams.null : ShaderParams := ⟨none, none⟩

/-- The call `std::swap(a[i], a[j])` on an array of `n` elements. -/
def swapSlots {n : Nat} {α : Type} (a : Fin n → α) (i j : Fin n) : Fin n → α :=
  fun k => if k = i then a j else if k = j then a i else a k

/-- The assignment `a[i] = v`. -/
def setSlot {n : Nat} {α : Type} (a : Fin n → α) (i : Fin n) (v : α) : Fin n → α :=
  fun k => if k = i then v else a k

/-! ## Settings -/

/-- A vector of three floats. -/
structure Vector3 where
  x : ℚ
  y : ℚ
  z : ℚ
  deriving DecidableEq, Repr

/-- Component-wise product `a * b` of two vectors. -/
def Vector3.mul (a b : Vector3) : Vector3 := ⟨a.x * b.x, a.y * b.y, a.z * b.z⟩

/-- Modelled from the spec: the enumeration `SystemAdvectionType_t` of
`FluidSettings.h`, which is not among the sources; the spec lists
"advectionType (enum: Normal | MacCormack)" and `Advect` switches on the two
enumerators `NORMAL` and `MACCORMARCK`. -/
inductive SystemAdvectionType_t where
  | NORMAL
  | MACCORMARCK
  deriving DecidableEq, Repr

/-- Modelled from the spec: the record `FluidSettings` of `FluidSettings.h`,
which is not among the sources.  The fields are those the spec lists and the
calculator reads; `jacobiIterations` is compared with an `int` loop counter. -/
structure FluidSettings where
  dimensions : Vector3
  timeStep : ℚ
  densityBuoyancy : ℚ
  densityWeight : ℚ
  vorticityStrength : ℚ
  temperatureDissipation : ℚ
  densityDissipation : ℚ
  velocityDissipation : ℚ
  advectionType : SystemAdvectionType_t
  jacobiIterations : Int
  constantInputPosition : Vector3
  constantDensityAmount : ℚ
  constantTemperature : ℚ
  constantInputRadius : ℚ
  deriving DecidableEq, Repr

/-! ## Parameter blocks -/

/-- Content of the general constant buffer, as written by `UpdateGeneralBuffer`. -/
structure InputBufferGeneral where
  fTimeStep : ℚ
  fDensityBuoyancy : ℚ
  fDensityWeight : ℚ
  fVorticityStrength : ℚ
  deriving DecidableEq, Repr

/-- Content of the advection constant buffer. -/
structure InputBufferAdvection where
  fDissipation : ℚ
  fTimeStepModifier : ℚ
  deriving DecidableEq, Repr

/-- Content of the impulse constant buffer. -/
structure InputBufferImpulse where
  vPoint : Vector3
  fRadius : ℚ
  fAmount : ℚ
  deriving DecidableEq, Repr

/-! ## The device and the calls made on it -/

/-- The compute shader objects the calculator owns, one per member
(`mAdvectionShader`, `mMacCormarckAdvectionShader`, ...), and the obstacle
shader local to `Initialize`. -/
inductive Kernel where
  | Advection
  | MacCormarckAdvection
  | Impulse
  | Vorticity
  | Confinement
  | Jacobi
  | Divergence
  | SubtractGradient
  | Buoyancy
  | Obstacle
  deriving DecidableEq, Repr

/-- The three array members a caller can pass to `Advect` as `target`. -/
inductive Target where
  | velocity
  | density
  | temperature
  deriving DecidableEq, Repr

/-- A `ShaderParams` object of the calculator: an element of one of the
arrays, or one of the single-buffer members. -/
inductive Place where
  | velocity (i : Fin 4)
  | density (i : Fin 4)
  | temperature (i : Fin 4)
  | pressure (i : Fin 2)
  | vorticity
  | divergence
  | obstacle
  deriving DecidableEq, Repr

/-- The element `target[i]`. -/
def Target.place : Target → Fin 4 → Place
  | .velocity, i => .velocity i
  | .density, i => .density i
  | .temperature, i => .temperature i

/-- A `ShaderParams` argument of a dispatch: the object that was passed and
the views it held at the time of the call. -/
structure Arg where
  place : Place
  value : ShaderParams
  deriving DecidableEq, Repr

/-- The three constant buffers. -/
inductive ConstantBuffer where
  | General
  | Advection
  | Impulse
  deriving DecidableEq, Repr

/-- One operation of the calculator in program order: a call on the device
context, a compute dispatch, or an exchange of two array elements. -/
inductive Event where
  | CSSetSamplers
  | CSSetShaderResources (startSlot : Nat) (srv : Option Handle)
  | CSSetConstantBuffers
  | UpdateGeneralBuffer (data : InputBufferGeneral)
  | UpdateAdvectionBuffer (data : InputBufferAdvection)
  | UpdateImpulseBuffer (data : InputBufferImpulse)
  | Compute (shader : Kernel) (inputs : List Arg) (output : Arg)
  | ClearRenderTargetView (rtv : Option Handle)
  | swap (a b : Place)
  deriving DecidableEq, Repr

/-- The resource-creation calls of `Initialize`, named by call site. -/
inductive CreateCall where
  | ShaderInitialize (k : Kernel)
  | CreateTexture3D (p : Place)
  | CreateShaderResourceView (p : Place)
  | CreateUnorderedAccessView (p : Place)
  | CreateRenderTargetView (i : Fin 2)
  | BuildDynamicBuffer (b : ConstantBuffer)
  | CreateSamplerState
  deriving DecidableEq, Repr

/-- The behaviour of the device: which creation calls it lets succeed (a view
creation on a null resource fails whatever the device, see `viewCreated`),
and whether the `k`-th call of `Map` (counted from 0) succeeds. -/
structure Device where
  createOk : CreateCall → Bool
  mapOk : Nat → Bool

/-- Texture formats used by the calculator. -/
inductive DXGI_FORMAT where
  | UNKNOWN
  | R16G16B16A16_FLOAT
  | R16_FLOAT
  deriving DecidableEq, Repr

/-- The fields of `D3D11_TEXTURE3D_DESC` that `InitShaderParams` sets. -/
structure D3D11_TEXTURE3D_DESC where
  Width : Nat
  Height : Nat
  Depth : Nat
  MipLevels : Nat
  Format : DXGI_FORMAT
  BindFlags : Nat
  deriving DecidableEq, Repr

/-- Bind flag of `d3d11.h`. -/
def D3D11_BIND_SHADER_RESOURCE : Nat := 0x8
/-- Bind flag of `d3d11.h`. -/
def D3D11_BIND_RENDER_TARGET : Nat := 0x20
/-- Bind flag of `d3d11.h`. -/
def D3D11_BIND_UNORDERED_ACCESS : Nat := 0x80

/-- The conversion `(UINT) x` of a non-negative float: truncation, in 32 bits. -/
def castUINT (x : ℚ) : Nat := (Rat.floor x).toNat % 4294967296

/-! ## The calculator -/

/-- The members of `Fluid3DCalculator`, the content of its constant buffers,
and the device state it acts on: the textures created so far (the handle of a
texture is its index), the number of `Map` calls made, and the log of
operations. -/
structure Fluid3DCalculator where
  mFluidSettings : FluidSettings
  mShaders : Kernel → Option Vector3
  mVelocitySP : Fin 4 → ShaderParams
  mDensitySP : Fin 4 → ShaderParams
  mTemperatureSP : Fin 4 → ShaderParams
  mPressureSP : Fin 2 → ShaderParams
  mObstacleSP : ShaderParams
  mVorticitySP : ShaderParams
  mDivergenceSP : ShaderParams
  mPressureRenderTargets : Fin 2 → Option Handle
  mInputBufferGeneral : Option InputBufferGeneral
  mInputBufferAdvection : Option InputBufferAdvection
  mInputBufferImpulse : Option InputBufferImpulse
  mSampleState : Bool
  textures : List D3D11_TEXTURE3D_DESC
  mapCalls : Nat
  log : List Event

/-- The constructor `Fluid3DCalculator(fluidSettings)`: every pointer is null. -/
def Fluid3DCalculator.new (fluidSettings : FluidSettings) : Fluid3DCalculator where
  mFluidSettings := fluidSettings
  mShaders := fun _ => none
  mVelocitySP := fun _ => ShaderParams.null
  mDensitySP := fun _ => ShaderParams.null
  mTemperatureSP := fun _ => ShaderParams.null
  mPressureSP := fun _ => ShaderParams.null
  mObstacleSP := ShaderParams.null
  mVorticitySP := ShaderParams.null
  mDivergenceSP := ShaderParams.null
  mPressureRenderTargets := fun _ => none
  mInputBufferGeneral := none
  mInputBufferAdvection := none
  mInputBufferImpulse := none
  mSampleState := false
  textures := []
  mapCalls := 0
  log := []

/-- The array `target` points to. -/
def Fluid3DCalculator.target (s : Fluid3DCalculator) : Target → Fin 4 → ShaderParams
  | .velocity => s.mVelocitySP
  | .density => s.mDensitySP
  | .temperature => s.mTemperatureSP

/-- Assignment to the array `target` points to. -/
def Fluid3DCalculator.setTarget (s : Fluid3DCalculator) (t : Target)
    (a : Fin 4 → ShaderParams) : Fluid3DCalculator :=
  match t with
  | .velocity => { s with mVelocitySP := a }
  | .density => { s with mDensitySP := a }
  | .temperature => { s with mTemperatureSP := a }

/-- The argument `&mVelocitySP[i]`. -/
def Fluid3DCalculator.velocityArg (s : Fluid3DCalculator) (i : Fin 4) : Arg :=
  ⟨.velocity i, s.mVelocitySP i⟩
/-- The argument `&mDensitySP[i]`. -/
def Fluid3DCalculator.densityArg (s : Fluid3DCalculator) (i : Fin 4) : Arg :=
  ⟨.density i, s.mDensitySP i⟩
/-- The argument `&mTemperatureSP[i]`. -/
def Fluid3DCalculator.temperatureArg (s : Fluid3DCalculator) (i : Fin 4) : Arg :=
  ⟨.temperature i, s.mTemperatureSP i⟩
/-- The argument `&mPressureSP[i]`. -/
def Fluid3DCalculator.pressureArg (s : Fluid3DCalculator) (i : Fin 2) : Arg :=
  ⟨.pressure i, s.mPressureSP i⟩
/-- The argument `&target[i]` (or a copy of `target[i]`). -/
def Fluid3DCalculator.targetArg (s : Fluid3DCalculator) (t : Target) (i : Fin 4) : Arg :=
  ⟨t.place i, s.target t i⟩
/-- The argument `mVorticitySP.get()`. -/
def Fluid3DCalculator.vorticityArg (s : Fluid3DCalculator) : Arg :=
  ⟨.vorticity, s.mVorticitySP⟩
/-- The argument `mDivergenceSP.get()`. -/
def Fluid3DCalculator.divergenceArg (s : Fluid3DCalculator) : Arg :=
  ⟨.divergence, s.mDivergenceSP⟩
/-- The argument `mObstacleSP.get()`. -/
def Fluid3DCalculator.obstacleArg (s : Fluid3DCalculator) : Arg :=
  ⟨.obstacle, s.mObstacleSP⟩

/-- Append one operation to the log. -/
def Fluid3DCalculator.emit (s : Fluid3DCalculator) (e : Event) : Fluid3DCalculator :=
  { s with log := s.log ++ [e] }

/-- A call `shader->Compute(context, inputs..., output)`: one dispatch. -/
def Compute (shader : Kernel) (inputs : List Arg) (output : Arg)
    (s : Fluid3DCalculator) : Fluid3DCalculator :=
  s.emit (.Compute shader inputs output)

/-- The call `swap(target[i], target[j])`. -/
def swapTarget (t : Target) (i j : Fin 4) (s : Fluid3DCalculator) : Fluid3DCalculator :=
  (s.setTarget t (swapSlots (s.target t) i j)).emit (.swap (t.place i) (t.place j))

/-- The call `swap(mPressureSP[i], mPressureSP[j])`. -/
def swapPressure (i j : Fin 2) (s : Fluid3DCalculator) : Fluid3DCalculator :=
  ({ s with mPressureSP := swapSlots s.mPressureSP i j }).emit (.swap (.pressure i) (.pressure j))

/-! ## Parameter block updates -/

/-- The method `UpdateGeneralBuffer`: map the general buffer, write the four
values of the current settings, unmap; throws when `Map` fails. -/
def UpdateGeneralBuffer (dev : Device) (s : Fluid3DCalculator) : Except String Fluid3DCalculator :=
  if dev.mapOk s.mapCalls then
    let data : InputBufferGeneral :=
      { fTimeStep := s.mFluidSettings.timeStep
        fDensityBuoyancy := s.mFluidSettings.densityBuoyancy
        fDensityWeight := s.mFluidSettings.densityWeight
        fVorticityStrength := s.mFluidSettings.vorticityStrength }
    .ok ({ s with mapCalls := s.mapCalls + 1, mInputBufferGeneral := some data }.emit
      (.UpdateGeneralBuffer data))
  else
    .error "Fluid3DEffect: failed to map buffer in UpdateGeneralBuffer function"

/-- The method `UpdateAdvectionBuffer`. -/
def UpdateAdvectionBuffer (dev : Device) (dissipation timeModifier : ℚ)
    (s : Fluid3DCalculator) : Except String Fluid3DCalculator :=
  if dev.mapOk s.mapCalls then
    let data : InputBufferAdvection :=
      { fDissipation := dissipation, fTimeStepModifier := timeModifier }
    .ok ({ s with mapCalls := s.mapCalls + 1, mInputBufferAdvection := some data }.emit
      (.UpdateAdvectionBuffer data))
  else
    .error "Fluid3DEffect: failed to map buffer in UpdateDissipationBuffer function"

/-- The method `UpdateImpulseBuffer`. -/
def UpdateImpulseBuffer (dev : Device) (point : Vector3) (amount radius : ℚ)
    (s : Fluid3DCalculator) : Except String Fluid3DCalculator :=
  if dev.mapOk s.mapCalls then
    let data : InputBufferImpulse := { vPoint := point, fRadius := radius, fAmount := amount }
    .ok ({ s with mapCalls := s.mapCalls + 1, mInputBufferImpulse := some data }.emit
      (.UpdateImpulseBuffer data))
  else
    .error "Fluid3DEffect: failed to map buffer in UpdateImpulseBuffer function"

/-! ## The simulation step -/

/-- The method `Advect`. -/
def Advect (dev : Device) (target : Target) (advectionType : SystemAdvectionType_t)
    (dissipation : ℚ) (s : Fluid3DCalculator) : Except String Fluid3DCalculator := do
  let (s, bufferToSwap) ← (match advectionType with
    | .NORMAL => do
      let s ← UpdateAdvectionBuffer dev dissipation 1 s
      pure (s, (WRITE2 : Fin 4))
    | .MACCORMARCK => do
      let s ← UpdateAdvectionBuffer dev 1 1 s
      pure (s, (WRITE : Fin 4)))
  let s := Compute .Advection [s.velocityArg READ, s.targetArg target READ]
    (s.targetArg target WRITE2) s
  let s ← (if advectionType = .MACCORMARCK then do
      -- advect backwards a step
      let s ← UpdateAdvectionBuffer dev 1 (-1) s
      let s := Compute .Advection [s.velocityArg READ, s.targetArg target WRITE2]
        (s.targetArg target WRITE3) s
      let advectArrayDens : List Arg :=
        [s.targetArg target WRITE2, s.targetArg target WRITE3, s.targetArg target READ]
      -- proceed with MacCormack advection
      let s ← UpdateAdvectionBuffer dev dissipation 1 s
      pure (Compute .MacCormarckAdvection (s.velocityArg READ :: advectArrayDens)
        (s.targetArg target WRITE) s)
    else pure s)
  pure (swapTarget target READ bufferToSwap s)

/-- The method `RefreshConstantImpulse`. -/
def RefreshConstantImpulse (dev : Device) (s : Fluid3DCalculator) :
    Except String Fluid3DCalculator := do
  let impulsePos := Vector3.mul s.mFluidSettings.dimensions s.mFluidSettings.constantInputPosition
  -- refresh the impulse of the density and temperature
  let s ← UpdateImpulseBuffer dev impulsePos s.mFluidSettings.constantDensityAmount
    s.mFluidSettings.constantInputRadius s
  let s := Compute .Impulse [s.densityArg READ] (s.densityArg WRITE) s
  let s := swapTarget .density READ WRITE s
  let s ← UpdateImpulseBuffer dev impulsePos s.mFluidSettings.constantTemperature
    s.mFluidSettings.constantInputRadius s
  let s := Compute .Impulse [s.temperatureArg READ] (s.temperatureArg WRITE) s
  pure (swapTarget .temperature READ WRITE s)

/-- The method `ComputeVorticityConfinement`. -/
def ComputeVorticityConfinement (s : Fluid3DCalculator) : Fluid3DCalculator :=
  let s := Compute .Vorticity [s.velocityArg READ] s.vorticityArg s
  let s := Compute .Confinement [s.velocityArg READ, s.vorticityArg] (s.velocityArg WRITE) s
  swapTarget .velocity READ WRITE s

/-- The body of the loop of `CalculatePressureGradient`, run for the given
number of remaining iterations. -/
def jacobiLoop (s : Fluid3DCalculator) : Nat → Fluid3DCalculator
  | 0 => s
  | k + 1 =>
    let s := Compute .Jacobi [s.pressureArg READ, s.divergenceArg] (s.pressureArg WRITE) s
    let s := swapPressure READ WRITE s
    jacobiLoop s k

/-- The method `CalculatePressureGradient`: the loop `for (i = 0; i <
jacobiIterations; ++i)` runs `jacobiIterations` times, and not at all when
that number is not positive. -/
def CalculatePressureGradient (s : Fluid3DCalculator) : Fluid3DCalculator :=
  -- clear pressure texture to prepare for Jacobi
  let s := s.emit (.ClearRenderTargetView (s.mPressureRenderTargets READ))
  -- perform Jacobi on pressure field
  jacobiLoop s s.mFluidSettings.jacobiIterations.toNat

/-- The method `Process`. -/
def Process (dev : Device) (s : Fluid3DCalculator) : Except String Fluid3DCalculator := do
  let s := s.emit .CSSetSamplers
  -- Set the obstacle texture - it is constant throughout the execution step
  let s := s.emit (.CSSetShaderResources 4 s.mObstacleSP.mSRV)
  -- Set all the buffers to the context
  let s := s.emit .CSSetConstantBuffers
  -- Advect temperature against velocity
  let s ← Advect dev .temperature .NORMAL s.mFluidSettings.temperatureDissipation s
  -- Advect density against velocity
  let s ← Advect dev .density s.mFluidSettings.advectionType s.mFluidSettings.densityDissipation s
  -- Advect velocity against itself
  let s ← Advect dev .velocity .NORMAL s.mFluidSettings.velocityDissipation s
  -- Determine how the temperature of the fluid changes the velocity
  let s := Compute .Buoyancy [s.velocityArg READ, s.temperatureArg READ, s.densityArg READ]
    (s.velocityArg WRITE) s
  let s := swapTarget .velocity READ WRITE s
  -- Add a constant amount of density and temperature back into the system
  let s ← RefreshConstantImpulse dev s
  -- Try to preserve swirling movement of the fluid by injecting vorticity back into the system
  let s := ComputeVorticityConfinement s
  -- Calculate the divergence of the velocity
  let s := Compute .Divergence [s.velocityArg READ] s.divergenceArg s
  let s := CalculatePressureGradient s
  -- Use the pressure texture that was last computed. This computes divergence free velocity
  let s := Compute .SubtractGradient [s.velocityArg READ, s.pressureArg READ]
    (s.velocityArg WRITE) s
  pure (swapTarget .velocity READ WRITE s)

/-! ## Initialization -/

/-- One block of `InitShaders`: construct the shader object for the current
dimensions and call its `Initialize`. -/
def initShader (dev : Device) (k : Kernel) (s : Fluid3DCalculator) : Bool × Fluid3DCalculator :=
  (dev.createOk (.ShaderInitialize k),
    { s with mShaders := fun j => if j = k then some s.mFluidSettings.dimensions else s.mShaders j })

/-- The method `InitShaders`. -/
def InitShaders (dev : Device) (s : Fluid3DCalculator) : Bool × Fluid3DCalculator :=
  let (result, s) := initShader dev .Advection s
  if !result then (false, s) else
  let (result, s) := initShader dev .MacCormarckAdvection s
  if !result then (false, s) else
  let (result, s) := initShader dev .Impulse s
  if !result then (false, s) else
  let (result, s) := initShader dev .Vorticity s
  if !result then (false, s) else
  let (result, s) := initShader dev .Confinement s
  if !result then (false, s) else
  let (result, s) := initShader dev .Jacobi s
  if !result then (false, s) else
  let (result, s) := initShader dev .Divergence s
  if !result then (false, s) else
  let (result, s) := initShader dev .SubtractGradient s
  if !result then (false, s) else
  let (result, s) := initShader dev .Buoyancy s
  if !result then (false, s) else
  (true, s)

/-- The device call `CreateTexture3D` made for the object `p`: on success a
new texture with the next free handle exists; on failure the out-pointer
stays null.  Returns `SUCCEEDED(hr)` and the out-pointer. -/
def CreateTexture3D (dev : Device) (p : Place) (desc : D3D11_TEXTURE3D_DESC)
    (s : Fluid3DCalculator) : Bool × Option Handle × Fluid3DCalculator :=
  if dev.createOk (.CreateTexture3D p) then
    (true, some s.textures.length, { s with textures := s.textures ++ [desc] })
  else
    (false, none, s)

/-- The outcome of a view-creation call (`CreateShaderResourceView`,
`CreateUnorderedAccessView`, `CreateRenderTargetView`) on the resource `tex`:
the device rejects a null resource (`E_INVALIDARG`), and for a texture that
exists the device decides. -/
def viewCreated (dev : Device) (call : CreateCall) (tex : Option Handle) : Bool :=
  tex.isSome && dev.createOk call

/-- The device calls `CreateShaderResourceView` and `CreateUnorderedAccessView`
on the texture `tex`, each checked, filling `sp`: the first three statements
after a texture creation in `InitShaderParams`. -/
def createViews (dev : Device) (p : Place) (tex : Option Handle) (sp : ShaderParams) :
    Bool × ShaderParams :=
  if !viewCreated dev (.CreateShaderResourceView p) tex then (false, sp) else
  let sp := { sp with mSRV := tex }
  if !viewCreated dev (.CreateUnorderedAccessView p) tex then (false, sp) else
  (true, { sp with mUAV := tex })

/-- A loop `for (int i = 0; i < n; ++i)` whose body can return false from the
enclosing function. -/
def forSlots {n : Nat} (body : Fin n → Fluid3DCalculator → Bool × Fluid3DCalculator) :
    List (Fin n) → Fluid3DCalculator → Bool × Fluid3DCalculator
  | [], s => (true, s)
  | i :: rest, s =>
    let (result, s) := body i s
    if !result then (false, s) else forSlots body rest s

/-- The body of the creation loops of the velocity, density and temperature
arrays. -/
def initTargetSlot (dev : Device) (t : Target) (textureDesc : D3D11_TEXTURE3D_DESC)
    (i : Fin 4) (s : Fluid3DCalculator) : Bool × Fluid3DCalculator :=
  let (hr, text, s) := CreateTexture3D dev (t.place i) textureDesc s
  if !hr then (false, s) else
  let (hr, sp) := createViews dev (t.place i) text (s.target t i)
  (hr, s.setTarget t (setSlot (s.target t) i sp))

/-- The body of the creation loop of the pressure array and its render
targets. -/
def initPressureSlot (dev : Device) (textureDesc : D3D11_TEXTURE3D_DESC)
    (i : Fin 2) (s : Fluid3DCalculator) : Bool × Fluid3DCalculator :=
  let (hr, text, s) := CreateTexture3D dev (.pressure i) textureDesc s
  if !hr then (false, s) else
  let (hr, sp) := createViews dev (.pressure i) text (s.mPressureSP i)
  let s := { s with mPressureSP := setSlot s.mPressureSP i sp }
  if !hr then (false, s) else
  -- Create the render target
  if !viewCreated dev (.CreateRenderTargetView i) text then (false, s) else
  (true, { s with mPressureRenderTargets := setSlot s.mPressureRenderTargets i text })

/-- The method `InitShaderParams` (the message boxes are not modelled). -/
def InitShaderParams (dev : Device) (s : Fluid3DCalculator) : Bool × Fluid3DCalculator :=
  -- Create the velocity shader params
  let s := { s with mVelocitySP := fun _ => ShaderParams.null }
  let textureDesc : D3D11_TEXTURE3D_DESC :=
    { Width := castUINT s.mFluidSettings.dimensions.x
      Height := castUINT s.mFluidSettings.dimensions.y
      Depth := castUINT s.mFluidSettings.dimensions.z
      MipLevels := 1
      Format := .R16G16B16A16_FLOAT
      BindFlags := D3D11_BIND_SHADER_RESOURCE ||| D3D11_BIND_UNORDERED_ACCESS }
  let (result, s) := forSlots (initTargetSlot dev .velocity textureDesc) (List.finRange 4) s
  if !result then (false, s) else
  -- Create the obstacle shader params
  let s := { s with mObstacleSP := ShaderParams.null }
  let (hresult, obstacleText, s) := CreateTexture3D dev .obstacle textureDesc s
  if !hresult then (false, s) else
  let (hresult, sp) := createViews dev .obstacle obstacleText s.mObstacleSP
  let s := { s with mObstacleSP := sp }
  if !hresult then (false, s) else
  -- Create the density shader params
  let s := { s with mDensitySP := fun _ => ShaderParams.null }
  let textureDesc := { textureDesc with Format := .R16_FLOAT }
  let (result, s) := forSlots (initTargetSlot dev .density textureDesc) (List.finRange 4) s
  if !result then (false, s) else
  -- Create the temperature shader params
  let s := { s with mTemperatureSP := fun _ => ShaderParams.null }
  let (result, s) := forSlots (initTargetSlot dev .temperature textureDesc) (List.finRange 4) s
  if !result then (false, s) else
  -- Create the vorticity shader params
  let s := { s with mVorticitySP := ShaderParams.null }
  let (hresult, vorticityText, s) := CreateTexture3D dev .vorticity textureDesc s
  if !hresult then (false, s) else
  let (hresult, sp) := createViews dev .vorticity vorticityText s.mVorticitySP
  let s := { s with mVorticitySP := sp }
  if !hresult then (false, s) else
  -- Create divergence shader params: the result of this CreateTexture3D is
  -- overwritten by the next call before it is looked at, so that a failure
  -- shows in the view creation on the null texture
  let s := { s with mDivergenceSP := ShaderParams.null }
  let (_, divergenceText, s) := CreateTexture3D dev .divergence textureDesc s
  let (hresult, sp) := createViews dev .divergence divergenceText s.mDivergenceSP
  let s := { s with mDivergenceSP := sp }
  if !hresult then (false, s) else
  -- Create pressure shader params and render targets
  let s := { s with mPressureSP := fun _ => ShaderParams.null }
  let textureDesc := { textureDesc with
    BindFlags := D3D11_BIND_SHADER_RESOURCE ||| D3D11_BIND_UNORDERED_ACCESS |||
      D3D11_BIND_RENDER_TARGET }
  let (result, s) := forSlots (initPressureSlot dev textureDesc) (List.finRange 2) s
  if !result then (false, s) else
  (true, s)

/-- The method `InitBuffersAndSamplers`. -/
def InitBuffersAndSamplers (dev : Device) (s : Fluid3DCalculator) : Bool × Fluid3DCalculator :=
  -- Create the constant buffers
  if !dev.createOk (.BuildDynamicBuffer .General) then (false, s) else
  if !dev.createOk (.BuildDynamicBuffer .Advection) then (false, s) else
  if !dev.createOk (.BuildDynamicBuffer .Impulse) then (false, s) else
  -- Create the texture sampler state.
  if !dev.createOk .CreateSamplerState then (false, s) else
  (true, { s with mSampleState := true })

/-- The method `Initialize`: the returned boolean, and the calculator as the
call leaves it; throws when `UpdateGeneralBuffer` does. -/
def Initialize (dev : Device) (s : Fluid3DCalculator) :
    Except String (Bool × Fluid3DCalculator) :=
  let (result, s) := InitShaders dev s
  if !result then .ok (false, s) else
  let (result, s) := InitShaderParams dev s
  if !result then .ok (false, s) else
  let (result, s) := InitBuffersAndSamplers dev s
  if !result then .ok (false, s) else
  -- Update buffers with values
  match UpdateGeneralBuffer dev s with
  | .error e => .error e
  | .ok s =>
    -- create obstacle shader for generating the static obstacle field
    let result := dev.createOk (.ShaderInitialize .Obstacle)
    if !result then .ok (false, s) else
    .ok (true, Compute .Obstacle [] s.obstacleArg s)

/-! ## Settings and accessors -/

/-- The constant `BufferDirtyFlags::General`. -/
def BufferDirtyFlags.General : Nat := 0x01

/-- The method `GetUpdateDirtyFlags`. -/
def GetUpdateDirtyFlags (s : Fluid3DCalculator) (newSettings : FluidSettings) : Nat :=
  let dirtyFlags := 0
  if newSettings.timeStep ≠ s.mFluidSettings.timeStep
      ∨ newSettings.densityBuoyancy ≠ s.mFluidSettings.densityBuoyancy
      ∨ newSettings.densityWeight ≠ s.mFluidSettings.densityWeight
      ∨ newSettings.dimensions ≠ s.mFluidSettings.dimensions
      ∨ newSettings.vorticityStrength ≠ s.mFluidSettings.vorticityStrength then
    dirtyFlags ||| BufferDirtyFlags.General
  else
    dirtyFlags

/-- The method `SetFluidSettings`. -/
def SetFluidSettings (dev : Device) (fluidSettings : FluidSettings) (s : Fluid3DCalculator) :
    Except String Fluid3DCalculator :=
  -- Update buffers if needed
  let dirtyFlags := GetUpdateDirtyFlags s fluidSettings
  let s := { s with mFluidSettings := fluidSettings }
  if dirtyFlags &&& BufferDirtyFlags.General ≠ 0 then
    UpdateGeneralBuffer dev s
  else
    .ok s

/-- The method `GetFluidSettings`. -/
def GetFluidSettings (s : Fluid3DCalculator) : FluidSettings := s.mFluidSettings

/-- The method `GetVolumeTexture`. -/
def GetVolumeTexture (s : Fluid3DCalculator) : Option Handle := (s.mDensitySP READ).mSRV

/-! ## Traces -/

/-- Every call of `Map` succeeds. -/
def MapsSucceed (dev : Device) : Prop := ∀ k, dev.mapOk k = true

/-- The slot `Advect` exchanges with `READ`. -/
def advectBufferToSwap : SystemAdvectionType_t → Fin 4
  | .NORMAL => WRITE2
  | .MACCORMARCK => WRITE

/-- The number of parameter-block updates of one `Advect` call. -/
def advectMaps : SystemAdvectionType_t → Nat
  | .NORMAL => 1
  | .MACCORMARCK => 3

/-- The operations of one advection of `target`, as the specification
describes them, for a velocity array `vel` and a target array `tgt`. -/
def advectTrace (advectionType : SystemAdvectionType_t) (target : Target) (d : ℚ)
    (vel tgt : Fin 4 → ShaderParams) : List Event :=
  match advectionType with
  | .NORMAL =>
    [ .UpdateAdvectionBuffer ⟨d, 1⟩,
      .Compute .Advection [⟨.velocity READ, vel READ⟩, ⟨target.place READ, tgt READ⟩]
        ⟨target.place WRITE2, tgt WRITE2⟩,
      .swap (target.place READ) (target.place WRITE2) ]
  | .MACCORMARCK =>
    [ .UpdateAdvectionBuffer ⟨1, 1⟩,
      .Compute .Advection [⟨.velocity READ, vel READ⟩, ⟨target.place READ, tgt READ⟩]
        ⟨target.place WRITE2, tgt WRITE2⟩,
      .UpdateAdvectionBuffer ⟨1, -1⟩,
      .Compute .Advection [⟨.velocity READ, vel READ⟩, ⟨target.place WRITE2, tgt WRITE2⟩]
        ⟨target.place WRITE3, tgt WRITE3⟩,
      .UpdateAdvectionBuffer ⟨d, 1⟩,
      .Compute .MacCormarckAdvection
        [⟨.velocity READ, vel READ⟩, ⟨target.place WRITE2, tgt WRITE2⟩,
          ⟨target.place WRITE3, tgt WRITE3⟩, ⟨target.place READ, tgt READ⟩]
        ⟨target.place WRITE, tgt WRITE⟩,
      .swap (target.place READ) (target.place WRITE) ]

/-- The pressure array after `k` exchanges of `READ` and `WRITE`. -/
def rotatePressure (p : Fin 2 → ShaderParams) : Nat → Fin 2 → ShaderParams
  | 0 => p
  | k + 1 => rotatePressure (swapSlots p READ WRITE) k

/-- The operations of `k` Jacobi iterations starting from the pressure array
`p`, with divergence buffer `div`. -/
def jacobiTrace (p : Fin 2 → ShaderParams) (div : ShaderParams) : Nat → List Event
  | 0 => []
  | k + 1 =>
    [ .Compute .Jacobi [⟨.pressure READ, p READ⟩, ⟨.divergence, div⟩] ⟨.pressure WRITE, p WRITE⟩,
      .swap (.pressure READ) (.pressure WRITE) ]
      ++ jacobiTrace (swapSlots p READ WRITE) div k

/-- The operations of one call of `Process` from the state `s`, stage by
stage, written in terms of the buffers `s` holds. -/
def processTrace (s : Fluid3DCalculator) : List Event :=
  let st := s.mFluidSettings
  let vel0 := s.mVelocitySP
  let vel1 := swapSlots vel0 READ WRITE2
  let vel2 := swapSlots vel1 READ WRITE
  let vel3 := swapSlots vel2 READ WRITE
  let temp0 := s.mTemperatureSP
  let temp1 := swapSlots temp0 READ WRITE2
  let dens0 := s.mDensitySP
  let dens1 := swapSlots dens0 READ (advectBufferToSwap st.advectionType)
  let impulsePos := Vector3.mul st.dimensions st.constantInputPosition
  [.CSSetSamplers, .CSSetShaderResources 4 s.mObstacleSP.mSRV, .CSSetConstantBuffers]
  ++ advectTrace .NORMAL .temperature st.temperatureDissipation vel0 temp0
  ++ advectTrace st.advectionType .density st.densityDissipation vel0 dens0
  ++ advectTrace .NORMAL .velocity st.velocityDissipation vel0 vel0
  ++ [ .Compute .Buoyancy
        [⟨.velocity READ, vel1 READ⟩, ⟨.temperature READ, temp1 READ⟩, ⟨.density READ, dens1 READ⟩]
        ⟨.velocity WRITE, vel1 WRITE⟩,
       .swap (.velocity READ) (.velocity WRITE) ]
  ++ [ .UpdateImpulseBuffer ⟨impulsePos, st.constantInputRadius, st.constantDensityAmount⟩,
       .Compute .Impulse [⟨.density READ, dens1 READ⟩] ⟨.density WRITE, dens1 WRITE⟩,
       .swap (.density READ) (.density WRITE),
       .UpdateImpulseBuffer ⟨impulsePos, st.constantInputRadius, st.constantTemperature⟩,
       .Compute .Impulse [⟨.temperature READ, temp1 READ⟩] ⟨.temperature WRITE, temp1 WRITE⟩,
       .swap (.temperature READ) (.temperature WRITE) ]
  ++ [ .Compute .Vorticity [⟨.velocity READ, vel2 READ⟩] ⟨.vorticity, s.mVorticitySP⟩,
       .Compute .Confinement [⟨.velocity READ, vel2 READ⟩, ⟨.vorticity, s.mVorticitySP⟩]
        ⟨.velocity WRITE, vel2 WRITE⟩,
       .swap (.velocity READ) (.velocity WRITE) ]
  ++ [ .Compute .Divergence [⟨.velocity READ, vel3 READ⟩] ⟨.divergence, s.mDivergenceSP⟩ ]
  ++ [ .ClearRenderTargetView (s.mPressureRenderTargets READ) ]
  ++ jacobiTrace s.mPressureSP s.mDivergenceSP st.jacobiIterations.toNat
  ++ [ .Compute .SubtractGradient
        [⟨.velocity READ, vel3 READ⟩,
          ⟨.pressure READ, rotatePressure s.mPressureSP st.jacobiIterations.toNat READ⟩]
        ⟨.velocity WRITE, vel3 WRITE⟩,
       .swap (.velocity READ) (.velocity WRITE) ]

/-- The calculator after one call of `Process` from the state `s`, when no
`Map` call fails. -/
def processResult (s : Fluid3DCalculator) : Fluid3DCalculator :=
  let st := s.mFluidSettings
  { s with
    mVelocitySP := swapSlots (swapSlots (swapSlots (swapSlots s.mVelocitySP READ WRITE2)
      READ WRITE) READ WRITE) READ WRITE
    mDensitySP := swapSlots (swapSlots s.mDensitySP READ (advectBufferToSwap st.advectionType))
      READ WRITE
    mTemperatureSP := swapSlots (swapSlots s.mTemperatureSP READ WRITE2) READ WRITE
    mPressureSP := rotatePressure s.mPressureSP st.jacobiIterations.toNat
    mInputBufferAdvection := some ⟨st.velocityDissipation, 1⟩
    mInputBufferImpulse := some
      ⟨Vector3.mul st.dimensions st.constantInputPosition, st.constantInputRadius,
        st.constantTemperature⟩
    mapCalls := s.mapCalls + (advectMaps st.advectionType + 4)
    log := s.log ++ processTrace s }

/-! ## Stages -/

/-- The grid fields of the solver. -/
inductive Field where
  | velocity
  | density
  | temperature
  | pressure
  | vorticity
  | divergence
  | obstacle
  deriving DecidableEq, Repr

/-- The field a `ShaderParams` object belongs to. -/
def Place.field : Place → Field
  | .velocity _ => .velocity
  | .density _ => .density
  | .temperature _ => .temperature
  | .pressure _ => .pressure
  | .vorticity => .vorticity
  | .divergence => .divergence
  | .obstacle => .obstacle

/-- What a pipeline stage is on the device: a dispatch of a kernel writing a
field, or the clear of the pressure render target. -/
inductive Stage where
  | dispatch (shader : Kernel) (writes : Field)
  | clearPressure
  deriving DecidableEq, Repr

/-- The stage an operation issues, if it issues one. -/
def Event.stage : Event → Option Stage
  | .Compute shader _ output => some (.dispatch shader output.place.field)
  | .ClearRenderTargetView _ => some .clearPressure
  | _ => none

/-- The dispatches that make up the advection of a field. -/
def advectStages : SystemAdvectionType_t → Field → List Stage
  | .NORMAL, f => [.dispatch .Advection f]
  | .MACCORMARCK, f =>
    [.dispatch .Advection f, .dispatch .Advection f, .dispatch .MacCormarckAdvection f]

/-- Whether an operation belongs to an advection: an update of the advection
parameter block or a dispatch of one of the two advection kernels. -/
def Event.isAdvection : Event → Bool
  | .UpdateAdvectionBuffer _ => true
  | .Compute .Advection _ _ => true
  | .Compute .MacCormarckAdvection _ _ => true
  | _ => false

/-- The new settings differ from the current ones in one of the five fields
the specification names for the general parameter block. -/
def generalFieldsDiffer (current new : FluidSettings) : Prop :=
  new.dimensions ≠ current.dimensions ∨ new.timeStep ≠ current.timeStep
    ∨ new.densityBuoyancy ≠ current.densityBuoyancy
    ∨ new.densityWeight ≠ current.densityWeight
    ∨ new.vorticityStrength ≠ current.vorticityStrength

instance (current new : FluidSettings) : Decidable (generalFieldsDiffer current new) := by
  unfold generalFieldsDiffer
  infer_instance

/-! ## Example inputs -/

/-- A device on which every call succeeds. -/
def allSucceed : Device := ⟨fun _ => true, fun _ => true⟩

/-- Settings for a grid of 2 x 2 x 2 cells with MacCormack advection of the
density and one Jacobi iteration. -/
def exampleSettings : FluidSettings :=
  { dimensions := ⟨2, 2, 2⟩
    timeStep := 1
    densityBuoyancy := 1
    densityWeight := 1
    vorticityStrength := 1
    temperatureDissipation := 3
    densityDissipation := 4
    velocityDissipation := 5
    advectionType := .MACCORMARCK
    jacobiIterations := 1
    constantInputPosition := ⟨1, 1, 1⟩
    constantDensityAmount := 1
    constantTemperature := 1
    constantInputRadius := 1 }

/-- The example settings with another time step. -/
def exampleSettingsNewTimeStep : FluidSettings := { exampleSettings with timeStep := 2 }

/-- The example settings for a grid of 4 x 4 x 4 cells. -/
def exampleSettingsNewDimensions : FluidSettings :=
  { exampleSettings with dimensions := ⟨4, 4, 4⟩ }

/-- A device on which the creation of the divergence texture fails and every
other call succeeds. -/
def divergenceTextureFails : Device :=
  ⟨fun call => decide (call ≠ .CreateTexture3D .divergence), fun _ => true⟩

/-- The calculator `Initialize` leaves for the example settings on a device
on which every call succeeds. -/
def initializedCalculator : Fluid3DCalculator :=
  match Initialize allSucceed (Fluid3DCalculator.new exampleSettings) with
  | .ok (_, s) => s
  | .error _ => Fluid3DCalculator.new exampleSettings

/-- The initialized example calculator after one call of `Process`. -/
def afterFirstStep : Fluid3DCalculator :=
  match Process allSucceed initializedCalculator with
  | .ok s => s
  | .error _ => initializedCalculator

/-- The buffers of the multi-buffered fields: the slots of the velocity,
density, temperature and pressure arrays. -/
def Fluid3DCalculator.rotatingBuffers (s : Fluid3DCalculator) : List ShaderParams :=
  List.ofFn s.mVelocitySP ++ List.ofFn s.mDensitySP ++ List.ofFn s.mTemperatureSP
    ++ List.ofFn s.mPressureSP

/-- Every buffer the calculator holds: the slots of the four arrays and the
vorticity, divergence and obstacle buffers. -/
def Fluid3DCalculator.buffers (s : Fluid3DCalculator) : List ShaderParams :=
  s.rotatingBuffers ++ [s.mVorticitySP, s.mDivergenceSP, s.mObstacleSP]

/-- The render targets cleared by the operations of a trace, in order. -/
def clearedTargets (t : List Event) : List (Option Handle) :=
  t.filterMap fun e =>
    match e with
    | .ClearRenderTargetView rtv => some rtv
    | _ => none

/-- The inputs and the output of the Jacobi dispatches of a trace, in order. -/
def jacobiDispatches (t : List Event) : List (List Arg × Arg) :=
  t.filterMap fun e =>
    match e with
    | .Compute .Jacobi inputs output => some (inputs, output)
    | _ => none

/-! ## Pipeline transitions -/

/-- The `READ` slot of a multi-buffered field; the single buffer of the
other fields. -/
def Fluid3DCalculator.current (s : Fluid3DCalculator) : Field → ShaderParams
  | .velocity => s.mVelocitySP READ
  | .density => s.mDensitySP READ
  | .temperature => s.mTemperatureSP READ
  | .pressure => s.mPressureSP READ
  | .vorticity => s.mVorticitySP
  | .divergence => s.mDivergenceSP
  | .obstacle => s.mObstacleSP

/-- A transition of the pipeline of the specification: the multi-buffered
field whose new value it produces, if any, and what it does. -/
structure Transition where
  produces : Option Field
  run : Fluid3DCalculator → Except String Fluid3DCalculator

/-- Binding of the sampler, the obstacle texture and the constant buffers. -/
def bindResources (s : Fluid3DCalculator) : Fluid3DCalculator :=
  ((s.emit .CSSetSamplers).emit (.CSSetShaderResources 4 s.mObstacleSP.mSRV)).emit
    .CSSetConstantBuffers

/-- Step 4 of the pipeline: buoyancy, then the exchange of the velocity slots. -/
def buoyancyTransition (s : Fluid3DCalculator) : Fluid3DCalculator :=
  swapTarget .velocity READ WRITE
    (Compute .Buoyancy [s.velocityArg READ, s.temperatureArg READ, s.densityArg READ]
      (s.velocityArg WRITE) s)

/-- Step 5 of the pipeline, first half: the impulse on the density. -/
def densityImpulseTransition (dev : Device) (s : Fluid3DCalculator) :
    Except String Fluid3DCalculator := do
  let s ← UpdateImpulseBuffer dev
    (Vector3.mul s.mFluidSettings.dimensions s.mFluidSettings.constantInputPosition)
    s.mFluidSettings.constantDensityAmount s.mFluidSettings.constantInputRadius s
  pure (swapTarget .density READ WRITE
    (Compute .Impulse [s.densityArg READ] (s.densityArg WRITE) s))

/-- Step 5 of the pipeline, second half: the impulse on the temperature. -/
def temperatureImpulseTransition (dev : Device) (s : Fluid3DCalculator) :
    Except String Fluid3DCalculator := do
  let s ← UpdateImpulseBuffer dev
    (Vector3.mul s.mFluidSettings.dimensions s.mFluidSettings.constantInputPosition)
    s.mFluidSettings.constantTemperature s.mFluidSettings.constantInputRadius s
  pure (swapTarget .temperature READ WRITE
    (Compute .Impulse [s.temperatureArg READ] (s.temperatureArg WRITE) s))

/-- Step 6 of the pipeline, first half: the vorticity. -/
def vorticityTransition (s : Fluid3DCalculator) : Fluid3DCalculator :=
  Compute .Vorticity [s.velocityArg READ] s.vorticityArg s

/-- Step 6 of the pipeline, second half: confinement, then the exchange of
the velocity slots. -/
def confinementTransition (s : Fluid3DCalculator) : Fluid3DCalculator :=
  swapTarget .velocity READ WRITE
    (Compute .Confinement [s.velocityArg READ, s.vorticityArg] (s.velocityArg WRITE) s)

/-- Step 7 of the pipeline: the divergence. -/
def divergenceTransition (s : Fluid3DCalculator) : Fluid3DCalculator :=
  Compute .Divergence [s.velocityArg READ] s.divergenceArg s

/-- Step 8 of the pipeline, the clear of the pressure. -/
def clearTransition (s : Fluid3DCalculator) : Fluid3DCalculator :=
  s.emit (.ClearRenderTargetView (s.mPressureRenderTargets READ))

/-- Step 8 of the pipeline, one Jacobi iteration, then the exchange of the
pressure slots. -/
def jacobiTransition (s : Fluid3DCalculator) : Fluid3DCalculator :=
  swapPressure READ WRITE
    (Compute .Jacobi [s.pressureArg READ, s.divergenceArg] (s.pressureArg WRITE) s)

/-- Step 9 of the pipeline: subtract-gradient, then the exchange of the
velocity slots. -/
def subtractGradientTransition (s : Fluid3DCalculator) : Fluid3DCalculator :=
  swapTarget .velocity READ WRITE
    (Compute .SubtractGradient [s.velocityArg READ, s.pressureArg READ] (s.velocityArg WRITE) s)

/-- The transitions of one simulation step, in the order of the
specification, for the settings `st`. -/
def transitions (dev : Device) (st : FluidSettings) : List Transition :=
  [ ⟨none, fun s => .ok (bindResources s)⟩,
    ⟨some .temperature, Advect dev .temperature .NORMAL st.temperatureDissipation⟩,
    ⟨some .density, Advect dev .density st.advectionType st.densityDissipation⟩,
    ⟨some .velocity, Advect dev .velocity .NORMAL st.velocityDissipation⟩,
    ⟨some .velocity, fun s => .ok (buoyancyTransition s)⟩,
    ⟨some .density, densityImpulseTransition dev⟩,
    ⟨some .temperature, temperatureImpulseTransition dev⟩,
    ⟨none, fun s => .ok (vorticityTransition s)⟩,
    ⟨some .velocity, fun s => .ok (confinementTransition s)⟩,
    ⟨none, fun s => .ok (divergenceTransition s)⟩,
    ⟨none, fun s => .ok (clearTransition s)⟩ ]
  ++ List.replicate st.jacobiIterations.toNat ⟨some .pressure, fun s => .ok (jacobiTransition s)⟩
  ++ [⟨some .velocity, fun s => .ok (subtractGradientTransition s)⟩]

/-- Run transitions one after the other. -/
def runTransitions : List Transition → Fluid3DCalculator → Except String Fluid3DCalculator
  | [], s => .ok s
  | T :: rest, s => T.run s >>= runTransitions rest

/-- The output argument of the last dispatch of a trace. -/
def lastDispatchOutput (t : List Event) : Option Arg :=
  (t.filterMap fun e =>
    match e with
    | .Compute _ _ output => some output
    | _ => none).getLast?

/-- The buffer that is current for each multi-buffered field. -/
structure Latest where
  velocity : ShaderParams
  density : ShaderParams
  temperature : ShaderParams
  pressure : ShaderParams
  deriving DecidableEq, Repr

/-- The buffers in the `READ` slots of a calculator. -/
def Fluid3DCalculator.latest (s : Fluid3DCalculator) : Latest :=
  ⟨s.mVelocitySP READ, s.mDensitySP READ, s.mTemperatureSP READ, s.mPressureSP READ⟩

/-- Record `v` as the current buffer of the field of `p`. -/
def Latest.record (l : Latest) (p : Place) (v : ShaderParams) : Latest :=
  match p with
  | .velocity _ => { l with velocity := v }
  | .density _ => { l with density := v }
  | .temperature _ => { l with temperature := v }
  | .pressure _ => { l with pressure := v }
  | _ => l

/-- An input argument is not stale: when it is the `READ` slot of a
multi-buffered field, it holds the buffer recorded as current. -/
def Latest.fresh (l : Latest) (a : Arg) : Bool :=
  match a.place with
  | .velocity i => i ≠ READ || a.value = l.velocity
  | .density i => i ≠ READ || a.value = l.density
  | .temperature i => i ≠ READ || a.value = l.temperature
  | .pressure i => i ≠ READ || a.value = l.pressure
  | _ => true

/-- The place is the `READ` slot of the field of `b`. -/
def Place.isReadOf (a b : Place) : Bool :=
  match a, b with
  | .velocity i, .velocity _ => i = READ
  | .density i, .density _ => i = READ
  | .temperature i, .temperature _ => i = READ
  | .pressure i, .pressure _ => i = READ
  | _, _ => false

/-- Replay a trace from the current buffers `l`, where `pending` is the
output of the most recent dispatch: every dispatch input taken from a `READ`
slot must be the current buffer of its field, and every exchange must bring
into `READ` the slot the most recent dispatch wrote, whose buffer then
becomes current.  Returns the current buffers at the end, or `none` when a
check fails. -/
def readsLatest (l : Latest) (pending : Option Arg) : List Event → Option Latest
  | [] => some l
  | .Compute _ inputs output :: rest =>
    if inputs.all l.fresh then readsLatest l (some output) rest else none
  | .swap a b :: rest =>
    match pending with
    | some out =>
      if out.place = b ∧ a.isReadOf b then readsLatest (l.record b out.value) none rest
      else none
    | none => none
  | _ :: rest => readsLatest l pending rest

/-- The kernel and the output argument of an operation that is a dispatch
writing a density buffer. -/
def Event.densityWrite : Event → Option (Kernel × Arg)
  | .Compute shader _ output =>
    if output.place.field = .density then some (shader, output) else none
  | _ => none

/-- The dispatch of a trace that wrote a density buffer last: its kernel and
its output argument. -/
def lastDensityWrite (t : List Event) : Option (Kernel × Arg) :=
  (t.filterMap Event.densityWrite).getLast?

/-! ## Sequences of calls -/

/-- A sequence of `SetFluidSettings` calls, one for each settings value of
the list, in order. -/
def applySettings (dev : Device) :
    List FluidSettings → Fluid3DCalculator → Except String Fluid3DCalculator
  | [], s => .ok s
  | st :: rest, s => SetFluidSettings dev st s >>= applySettings dev rest

/-- The content the general parameter block has when it is up to date with
the settings `st`. -/
def generalBlockOf (st : FluidSettings) : InputBufferGeneral :=
  ⟨st.timeStep, st.densityBuoyancy, st.densityWeight, st.vorticityStrength⟩

/-- A sequence of simulation steps: for each settings value of the list, in
order, the settings are applied with `SetFluidSettings` and `Process` is
called once; the step then runs `jacobiIterations` of these settings. -/
def runSteps (dev : Device) :
    List FluidSettings → Fluid3DCalculator → Except String Fluid3DCalculator
  | [], s => .ok s
  | st :: rest, s => do
    let s ← SetFluidSettings dev st s
    let s ← Process dev s
    runSteps dev rest s

/-- The sum of the positive iteration counts of a sequence of steps. -/
def positiveIterations (steps : List FluidSettings) : Int :=
  ((steps.map fun st => st.jacobiIterations).filter fun n => 0 < n).sum

/-- The example settings with another time step and another constant density
amount: they differ from `exampleSettingsNewTimeStep` in no field of the
general parameter block. -/
def exampleSettingsNewAmount : FluidSettings :=
  { exampleSettingsNewTimeStep with constantDensityAmount := 7 }

/-- The example settings with two Jacobi iterations. -/
def exampleSettingsTwoIterations : FluidSettings :=
  { exampleSettings with jacobiIterations := 2 }

/-- The example settings with a negative number of Jacobi iterations. -/
def exampleSettingsNoIterations : FluidSettings :=
  { exampleSettings with jacobiIterations := -3 }

/-! ## The methods as state transformers -/

theorem Advect_eq (dev : Device) (hmap : MapsSucceed dev) (target : Target)
    (ty : SystemAdvectionType_t) (d : ℚ) (s : Fluid3DCalculator) :
    Advect dev target ty d s = .ok
      { s.setTarget target (swapSlots (s.target target) READ (advectBufferToSwap ty)) with
        mapCalls := s.mapCalls + advectMaps ty
        mInputBufferAdvection := some ⟨d, 1⟩
        log := s.log ++ advectTrace ty target d s.mVelocitySP (s.target target) } := by
  cases ty <;> cases target <;>
    simp [Advect, UpdateAdvectionBuffer, hmap _, bind, Except.bind, pure, Except.pure, Compute,
      swapTarget, Fluid3DCalculator.emit, Fluid3DCalculator.setTarget,
      Fluid3DCalculator.velocityArg, Fluid3DCalculator.targetArg, Fluid3DCalculator.target,
      advectTrace, advectBufferToSwap, advectMaps, Target.place]

theorem RefreshConstantImpulse_eq (dev : Device) (hmap : MapsSucceed dev) (s : Fluid3DCalculator) :
    RefreshConstantImpulse dev s = .ok
      { s with
        mDensitySP := swapSlots s.mDensitySP READ WRITE
        mTemperatureSP := swapSlots s.mTemperatureSP READ WRITE
        mapCalls := s.mapCalls + 2
        mInputBufferImpulse := some
          ⟨Vector3.mul s.mFluidSettings.dimensions s.mFluidSettings.constantInputPosition,
            s.mFluidSettings.constantInputRadius, s.mFluidSettings.constantTemperature⟩
        log := s.log ++
          [ .UpdateImpulseBuffer
              ⟨Vector3.mul s.mFluidSettings.dimensions s.mFluidSettings.constantInputPosition,
                s.mFluidSettings.constantInputRadius, s.mFluidSettings.constantDensityAmount⟩,
            .Compute .Impulse [s.densityArg READ] (s.densityArg WRITE),
            .swap (.density READ) (.density WRITE),
            .UpdateImpulseBuffer
              ⟨Vector3.mul s.mFluidSettings.dimensions s.mFluidSettings.constantInputPosition,
                s.mFluidSettings.constantInputRadius, s.mFluidSettings.constantTemperature⟩,
            .Compute .Impulse [s.temperatureArg READ] (s.temperatureArg WRITE),
            .swap (.temperature READ) (.temperature WRITE) ] } := by
  simp [RefreshConstantImpulse, UpdateImpulseBuffer, hmap _, bind, Except.bind, pure, Except.pure,
    Compute, swapTarget, Fluid3DCalculator.emit, Fluid3DCalculator.setTarget,
    Fluid3DCalculator.densityArg, Fluid3DCalculator.temperatureArg, Fluid3DCalculator.target,
    Target.place]

theorem jacobiLoop_eq (s : Fluid3DCalculator) (k : Nat) :
    jacobiLoop s k =
      { s with
        mPressureSP := rotatePressure s.mPressureSP k
        log := s.log ++ jacobiTrace s.mPressureSP s.mDivergenceSP k } := by
  induction k generalizing s with
  | zero => simp [jacobiLoop, rotatePressure, jacobiTrace]
  | succ k ih =>
    rw [jacobiLoop, ih]
    simp [Compute, swapPressure, Fluid3DCalculator.emit, rotatePressure, jacobiTrace,
      Fluid3DCalculator.pressureArg, Fluid3DCalculator.divergenceArg]

theorem CalculatePressureGradient_eq (s : Fluid3DCalculator) :
    CalculatePressureGradient s =
      { s with
        mPressureSP := rotatePressure s.mPressureSP s.mFluidSettings.jacobiIterations.toNat
        log := s.log ++ (.ClearRenderTargetView (s.mPressureRenderTargets READ) ::
          jacobiTrace s.mPressureSP s.mDivergenceSP s.mFluidSettings.jacobiIterations.toNat) } := by
  simp [CalculatePressureGradient, jacobiLoop_eq, Fluid3DCalculator.emit]

theorem Process_eq (dev : Device) (hmap : MapsSucceed dev) (s : Fluid3DCalculator) :
    Process dev s = .ok (processResult s) := by
  simp only [Process, Advect_eq dev hmap, RefreshConstantImpulse_eq dev hmap,
    CalculatePressureGradient_eq, ComputeVorticityConfinement]
  simp [bind, Except.bind, pure, Except.pure, Compute,
      swapTarget, Fluid3DCalculator.emit, Fluid3DCalculator.setTarget,
      Fluid3DCalculator.velocityArg, Fluid3DCalculator.targetArg, Fluid3DCalculator.target,
      Fluid3DCalculator.densityArg, Fluid3DCalculator.temperatureArg,
      Fluid3DCalculator.pressureArg, Fluid3DCalculator.divergenceArg,
      Fluid3DCalculator.vorticityArg, processResult, processTrace, Target.place,
      advectBufferToSwap, advectMaps]
  omega

/-! ## The order of the pipeline -/

theorem filterMap_stage_jacobiTrace (p : Fin 2 → ShaderParams) (div : ShaderParams) (k : Nat) :
    (jacobiTrace p div k).filterMap Event.stage =
      List.replicate k (Stage.dispatch .Jacobi .pressure) := by
  induction k generalizing p with
  | zero => rfl
  | succ k ih =>
    simp [jacobiTrace, List.filterMap_cons, Event.stage, Place.field, ih, List.replicate_succ]

/-- C1: whatever the advection type, one call of `Process` with
`jacobiIterations = n ≥ 0` succeeds (when no `Map` call fails) and issues
exactly these stages in this order: advection of temperature, of density, of
velocity, buoyancy writing velocity, impulse on density, impulse on
temperature, vorticity, confinement writing velocity, divergence, the clear
of the pressure target, `n` Jacobi iterations, subtract-gradient writing
velocity. -/
theorem Process_stage_order (dev : Device) (hmap : MapsSucceed dev) (s : Fluid3DCalculator)
    (n : Nat) (hn : s.mFluidSettings.jacobiIterations = (n : Int)) :
    ∃ s' t, Process dev s = .ok s' ∧ s'.log = s.log ++ t ∧
      t.filterMap Event.stage =
        advectStages .NORMAL .temperature
        ++ advectStages s.mFluidSettings.advectionType .density
        ++ advectStages .NORMAL .velocity
        ++ [ .dispatch .Buoyancy .velocity,
             .dispatch .Impulse .density,
             .dispatch .Impulse .temperature,
             .dispatch .Vorticity .vorticity,
             .dispatch .Confinement .velocity,
             .dispatch .Divergence .divergence,
             .clearPressure ]
        ++ List.replicate n (.dispatch .Jacobi .pressure)
        ++ [.dispatch .SubtractGradient .velocity] := by
  refine ⟨processResult s, processTrace s, Process_eq dev hmap s, rfl, ?_⟩
  have hk : s.mFluidSettings.jacobiIterations.toNat = n := by omega
  cases hty : s.mFluidSettings.advectionType <;>
    simp [processTrace, advectTrace, hty, hk, List.filterMap_append, List.filterMap_cons,
      filterMap_stage_jacobiTrace, Event.stage, Place.field, advectStages, Target.place]

/-- Instance of `Process_stage_order`: the initialized example calculator on a device on
which every call succeeds, with one Jacobi iteration. -/
theorem Process_stage_order_witness :
    MapsSucceed allSucceed ∧ initializedCalculator.mFluidSettings.jacobiIterations = ((1 : Nat) : Int) ∧
    ∃ s' t, Process allSucceed initializedCalculator = .ok s' ∧ s'.log = initializedCalculator.log ++ t ∧
      t.filterMap Event.stage =
        advectStages .NORMAL .temperature
        ++ advectStages initializedCalculator.mFluidSettings.advectionType .density
        ++ advectStages .NORMAL .velocity
        ++ [ .dispatch .Buoyancy .velocity,
             .dispatch .Impulse .density,
             .dispatch .Impulse .temperature,
             .dispatch .Vorticity .vorticity,
             .dispatch .Confinement .velocity,
             .dispatch .Divergence .divergence,
             .clearPressure ]
        ++ List.replicate 1 (.dispatch .Jacobi .pressure)
        ++ [.dispatch .SubtractGradient .velocity] :=
  ⟨fun _ => rfl, rfl, Process_stage_order allSucceed (fun _ => rfl) initializedCalculator 1 rfl⟩

/-! ## Advection -/

/-- C3: `Advect(target, MACCORMARCK, d)` succeeds (when no `Map` call fails)
and performs exactly three dispatches: the normal advection of `target[READ]`
into `target[WRITE2]` with parameters (1, 1), the normal advection of
`target[WRITE2]` into `target[WRITE3]` with parameters (1, -1), and the
MacCormack blend of `target[WRITE2]`, `target[WRITE3]`, `target[READ]` into
`target[WRITE]` with parameters (d, 1), each reading `mVelocitySP[READ]`; it
then exchanges `target[READ]` and `target[WRITE]`, so that `READ` holds the
output of the blend and `WRITE2`, `WRITE3` hold the buffers they held. -/
theorem Advect_maccormarck (dev : Device) (hmap : MapsSucceed dev) (target : Target)
    (d : ℚ) (s : Fluid3DCalculator) :
    ∃ s', Advect dev target .MACCORMARCK d s = .ok s' ∧
      s'.log = s.log ++
        [ .UpdateAdvectionBuffer ⟨1, 1⟩,
          .Compute .Advection [s.velocityArg READ, s.targetArg target READ]
            (s.targetArg target WRITE2),
          .UpdateAdvectionBuffer ⟨1, -1⟩,
          .Compute .Advection [s.velocityArg READ, s.targetArg target WRITE2]
            (s.targetArg target WRITE3),
          .UpdateAdvectionBuffer ⟨d, 1⟩,
          .Compute .MacCormarckAdvection
            [s.velocityArg READ, s.targetArg target WRITE2, s.targetArg target WRITE3,
              s.targetArg target READ]
            (s.targetArg target WRITE),
          .swap (target.place READ) (target.place WRITE) ] ∧
      s'.target target READ = s.target target WRITE ∧
      s'.target target WRITE = s.target target READ ∧
      s'.target target WRITE2 = s.target target WRITE2 ∧
      s'.target target WRITE3 = s.target target WRITE3 := by
  refine ⟨_, Advect_eq dev hmap target .MACCORMARCK d s, ?_, ?_, ?_, ?_, ?_⟩ <;>
    cases target <;>
    simp [advectTrace, advectBufferToSwap, Fluid3DCalculator.setTarget,
      Fluid3DCalculator.target, Fluid3DCalculator.velocityArg, Fluid3DCalculator.targetArg,
      swapSlots, READ, WRITE, WRITE2, WRITE3]

/-- Instance of `Advect_maccormarck`: the density of the initialized example calculator. -/
theorem Advect_maccormarck_witness :
    MapsSucceed allSucceed ∧
    ∃ s', Advect allSucceed .density .MACCORMARCK 4 initializedCalculator = .ok s' ∧
      s'.log = initializedCalculator.log ++
        [ .UpdateAdvectionBuffer ⟨1, 1⟩,
          .Compute .Advection
            [initializedCalculator.velocityArg READ, initializedCalculator.targetArg .density READ]
            (initializedCalculator.targetArg .density WRITE2),
          .UpdateAdvectionBuffer ⟨1, -1⟩,
          .Compute .Advection
            [initializedCalculator.velocityArg READ, initializedCalculator.targetArg .density WRITE2]
            (initializedCalculator.targetArg .density WRITE3),
          .UpdateAdvectionBuffer ⟨4, 1⟩,
          .Compute .MacCormarckAdvection
            [initializedCalculator.velocityArg READ, initializedCalculator.targetArg .density WRITE2,
              initializedCalculator.targetArg .density WRITE3,
              initializedCalculator.targetArg .density READ]
            (initializedCalculator.targetArg .density WRITE),
          .swap (Target.density.place READ) (Target.density.place WRITE) ] ∧
      s'.target .density READ = initializedCalculator.target .density WRITE ∧
      s'.target .density WRITE = initializedCalculator.target .density READ ∧
      s'.target .density WRITE2 = initializedCalculator.target .density WRITE2 ∧
      s'.target .density WRITE3 = initializedCalculator.target .density WRITE3 :=
  ⟨fun _ => rfl, Advect_maccormarck allSucceed (fun _ => rfl) .density 4 initializedCalculator⟩

theorem all_jacobiTrace_not_isAdvection (p : Fin 2 → ShaderParams) (div : ShaderParams)
    (k : Nat) : ∀ e ∈ jacobiTrace p div k, e.isAdvection = false := by
  induction k generalizing p with
  | zero => simp [jacobiTrace]
  | succ k ih =>
    intro e he
    simp only [jacobiTrace, List.mem_append, List.mem_cons, List.mem_singleton,
      List.not_mem_nil, or_false] at he
    rcases he with (rfl | rfl) | he
    · rfl
    · rfl
    · exact ih _ e he

/-- C4: `Advect(target, NORMAL, d)` succeeds (when no `Map` call fails) and
performs exactly one dispatch, reading `mVelocitySP[READ]` and `target[READ]`
and writing `target[WRITE2]` with parameters (d, 1), then exchanges
`target[READ]` and `target[WRITE2]`, leaving `WRITE` and `WRITE3` as they
were.  `Process` starts, after binding its resources, with the advection of
temperature of type NORMAL with `temperatureDissipation`, the advection of
density of the type of the settings with `densityDissipation`, and the
advection of velocity of type NORMAL with `velocityDissipation`, and performs
no other advection. -/
theorem Advect_normal (dev : Device) (hmap : MapsSucceed dev) (target : Target)
    (d : ℚ) (s : Fluid3DCalculator) :
    (∃ s', Advect dev target .NORMAL d s = .ok s' ∧
      s'.log = s.log ++
        [ .UpdateAdvectionBuffer ⟨d, 1⟩,
          .Compute .Advection [s.velocityArg READ, s.targetArg target READ]
            (s.targetArg target WRITE2),
          .swap (target.place READ) (target.place WRITE2) ] ∧
      s'.target target READ = s.target target WRITE2 ∧
      s'.target target WRITE2 = s.target target READ ∧
      s'.target target WRITE = s.target target WRITE ∧
      s'.target target WRITE3 = s.target target WRITE3) ∧
    (∃ s' sT sD sV rest, Process dev s = .ok s' ∧
      Advect dev .temperature .NORMAL s.mFluidSettings.temperatureDissipation
        (((s.emit .CSSetSamplers).emit (.CSSetShaderResources 4 s.mObstacleSP.mSRV)).emit
          .CSSetConstantBuffers) = .ok sT ∧
      Advect dev .density s.mFluidSettings.advectionType s.mFluidSettings.densityDissipation sT
        = .ok sD ∧
      Advect dev .velocity .NORMAL s.mFluidSettings.velocityDissipation sD = .ok sV ∧
      s'.log = sV.log ++ rest ∧ rest.all (fun e => !e.isAdvection) = true) := by
  constructor
  · refine ⟨_, Advect_eq dev hmap target .NORMAL d s, ?_, ?_, ?_, ?_, ?_⟩ <;>
      cases target <;>
      simp [advectTrace, advectBufferToSwap, Fluid3DCalculator.setTarget,
        Fluid3DCalculator.target, Fluid3DCalculator.velocityArg, Fluid3DCalculator.targetArg,
        swapSlots, READ, WRITE, WRITE2, WRITE3]
  · refine ⟨processResult s, _, _, _,
      (processTrace s).drop (3 + 3 + (2 * advectMaps s.mFluidSettings.advectionType + 1) + 3),
      Process_eq dev hmap s, Advect_eq dev hmap _ _ _ _, Advect_eq dev hmap _ _ _ _,
      Advect_eq dev hmap _ _ _ _, ?_, ?_⟩
    · cases hty : s.mFluidSettings.advectionType <;>
        simp [processResult, processTrace, advectTrace, advectMaps, hty, Fluid3DCalculator.emit,
          Fluid3DCalculator.setTarget, Fluid3DCalculator.target]
    · have hj := all_jacobiTrace_not_isAdvection s.mPressureSP s.mDivergenceSP
        s.mFluidSettings.jacobiIterations.toNat
      cases hty : s.mFluidSettings.advectionType <;>
        simpa [processTrace, advectTrace, advectMaps, hty, Event.isAdvection] using hj

/-- Instance of `Advect_normal`: the temperature of the initialized example calculator. -/
theorem Advect_normal_witness :
    MapsSucceed allSucceed ∧
    (∃ s', Advect allSucceed .temperature .NORMAL 3 initializedCalculator = .ok s' ∧
      s'.log = initializedCalculator.log ++
        [ .UpdateAdvectionBuffer ⟨3, 1⟩,
          .Compute .Advection
            [initializedCalculator.velocityArg READ, initializedCalculator.targetArg .temperature READ]
            (initializedCalculator.targetArg .temperature WRITE2),
          .swap (Target.temperature.place READ) (Target.temperature.place WRITE2) ] ∧
      s'.target .temperature READ = initializedCalculator.target .temperature WRITE2 ∧
      s'.target .temperature WRITE2 = initializedCalculator.target .temperature READ ∧
      s'.target .temperature WRITE = initializedCalculator.target .temperature WRITE ∧
      s'.target .temperature WRITE3 = initializedCalculator.target .temperature WRITE3) ∧
    (∃ s' sT sD sV rest, Process allSucceed initializedCalculator = .ok s' ∧
      Advect allSucceed .temperature .NORMAL
        initializedCalculator.mFluidSettings.temperatureDissipation
        (((initializedCalculator.emit .CSSetSamplers).emit
          (.CSSetShaderResources 4 initializedCalculator.mObstacleSP.mSRV)).emit
          .CSSetConstantBuffers) = .ok sT ∧
      Advect allSucceed .density initializedCalculator.mFluidSettings.advectionType
        initializedCalculator.mFluidSettings.densityDissipation sT = .ok sD ∧
      Advect allSucceed .velocity .NORMAL initializedCalculator.mFluidSettings.velocityDissipation sD
        = .ok sV ∧
      s'.log = sV.log ++ rest ∧ rest.all (fun e => !e.isAdvection) = true) :=
  ⟨fun _ => rfl, Advect_normal allSucceed (fun _ => rfl) .temperature 3 initializedCalculator⟩

/-! ## Settings updates -/

/-- C5: `SetFluidSettings(s)` pushes the general parameter block again
exactly when `s` differs from the current settings in `dimensions`,
`timeStep`, `densityBuoyancy`, `densityWeight` or `vorticityStrength`: that
is when `GetUpdateDirtyFlags` returns the flag `General`, and then the call
maps the general buffer once and writes it; otherwise it maps and writes
nothing.  A change of `constantDensityAmount` alone causes no push. -/
theorem SetFluidSettings_repush_iff (dev : Device) (hmap : MapsSucceed dev)
    (c : Fluid3DCalculator) (s : FluidSettings) :
    (GetUpdateDirtyFlags c s &&& BufferDirtyFlags.General ≠ 0 ↔
      generalFieldsDiffer c.mFluidSettings s) ∧
    (∃ c', SetFluidSettings dev s c = .ok c' ∧
      ((∃ data, c'.log = c.log ++ [.UpdateGeneralBuffer data]) ↔
        generalFieldsDiffer c.mFluidSettings s) ∧
      (generalFieldsDiffer c.mFluidSettings s →
        c'.log = c.log ++ [.UpdateGeneralBuffer
          ⟨s.timeStep, s.densityBuoyancy, s.densityWeight, s.vorticityStrength⟩] ∧
        c'.mapCalls = c.mapCalls + 1) ∧
      (¬ generalFieldsDiffer c.mFluidSettings s →
        c'.log = c.log ∧ c'.mapCalls = c.mapCalls ∧
        c'.mInputBufferGeneral = c.mInputBufferGeneral)) ∧
    (∀ amount, s = { c.mFluidSettings with constantDensityAmount := amount } →
      ∃ c', SetFluidSettings dev s c = .ok c' ∧ c'.log = c.log ∧ c'.mapCalls = c.mapCalls) := by
  have hflag : ∀ t : FluidSettings, GetUpdateDirtyFlags c t &&& BufferDirtyFlags.General ≠ 0 ↔
      generalFieldsDiffer c.mFluidSettings t := by
    intro t
    unfold GetUpdateDirtyFlags generalFieldsDiffer BufferDirtyFlags.General
    split
    · next h => simp; tauto
    · next h => simp; tauto
  have hyes : ∀ t : FluidSettings, generalFieldsDiffer c.mFluidSettings t →
      SetFluidSettings dev t c = UpdateGeneralBuffer dev { c with mFluidSettings := t } := by
    intro t ht
    simp only [SetFluidSettings]
    rw [if_pos ((hflag t).mpr ht)]
  have hno : ∀ t : FluidSettings, ¬ generalFieldsDiffer c.mFluidSettings t →
      SetFluidSettings dev t c = .ok { c with mFluidSettings := t } := by
    intro t ht
    simp only [SetFluidSettings]
    rw [if_neg (fun h => ht ((hflag t).mp h))]
  refine ⟨hflag s, ?_, ?_⟩
  · by_cases hd : generalFieldsDiffer c.mFluidSettings s
    · refine ⟨_, by rw [hyes s hd]; simp [UpdateGeneralBuffer, hmap _]; rfl, ?_, ?_, ?_⟩
      · simp [Fluid3DCalculator.emit, hd]
      · intro _; simp [Fluid3DCalculator.emit]
      · intro h; exact absurd hd h
    · refine ⟨_, hno s hd, ?_, ?_, ?_⟩
      · simp [hd]
      · intro h; exact absurd h hd
      · intro _; simp
  · intro amount hs
    have hd : ¬ generalFieldsDiffer c.mFluidSettings s := by
      subst hs
      simp [generalFieldsDiffer]
    exact ⟨_, hno s hd, rfl, rfl⟩

/-- Instance of `SetFluidSettings_repush_iff`: the initialized example calculator and a
new time step. -/
theorem SetFluidSettings_repush_iff_witness :
    MapsSucceed allSucceed ∧
    (GetUpdateDirtyFlags initializedCalculator exampleSettingsNewTimeStep
        &&& BufferDirtyFlags.General ≠ 0 ↔
      generalFieldsDiffer initializedCalculator.mFluidSettings exampleSettingsNewTimeStep) ∧
    (∃ c', SetFluidSettings allSucceed exampleSettingsNewTimeStep initializedCalculator = .ok c' ∧
      ((∃ data, c'.log = initializedCalculator.log ++ [.UpdateGeneralBuffer data]) ↔
        generalFieldsDiffer initializedCalculator.mFluidSettings exampleSettingsNewTimeStep) ∧
      (generalFieldsDiffer initializedCalculator.mFluidSettings exampleSettingsNewTimeStep →
        c'.log = initializedCalculator.log ++ [.UpdateGeneralBuffer
          ⟨exampleSettingsNewTimeStep.timeStep, exampleSettingsNewTimeStep.densityBuoyancy,
            exampleSettingsNewTimeStep.densityWeight,
            exampleSettingsNewTimeStep.vorticityStrength⟩] ∧
        c'.mapCalls = initializedCalculator.mapCalls + 1) ∧
      (¬ generalFieldsDiffer initializedCalculator.mFluidSettings exampleSettingsNewTimeStep →
        c'.log = initializedCalculator.log ∧ c'.mapCalls = initializedCalculator.mapCalls ∧
        c'.mInputBufferGeneral = initializedCalculator.mInputBufferGeneral)) ∧
    (∀ amount, exampleSettingsNewTimeStep =
        { initializedCalculator.mFluidSettings with constantDensityAmount := amount } →
      ∃ c', SetFluidSettings allSucceed exampleSettingsNewTimeStep initializedCalculator = .ok c' ∧
        c'.log = initializedCalculator.log ∧ c'.mapCalls = initializedCalculator.mapCalls) :=
  ⟨fun _ => rfl,
    SetFluidSettings_repush_iff allSucceed (fun _ => rfl) initializedCalculator
      exampleSettingsNewTimeStep⟩

/-! ## A change of dimensions -/

theorem SetFluidSettings_eq_of_differ (dev : Device) (hmap : MapsSucceed dev)
    (c : Fluid3DCalculator) (s : FluidSettings)
    (hd : generalFieldsDiffer c.mFluidSettings s) :
    SetFluidSettings dev s c = .ok
      { c with
        mFluidSettings := s
        mapCalls := c.mapCalls + 1
        mInputBufferGeneral := some
          ⟨s.timeStep, s.densityBuoyancy, s.densityWeight, s.vorticityStrength⟩
        log := c.log ++ [.UpdateGeneralBuffer
          ⟨s.timeStep, s.densityBuoyancy, s.densityWeight, s.vorticityStrength⟩] } := by
  have hflag : GetUpdateDirtyFlags c s &&& BufferDirtyFlags.General ≠ 0 := by
    unfold GetUpdateDirtyFlags BufferDirtyFlags.General
    unfold generalFieldsDiffer at hd
    split
    · simp
    · next h => exact absurd (by tauto) h
  simp only [SetFluidSettings]
  rw [if_pos hflag]
  simp [UpdateGeneralBuffer, hmap _, Fluid3DCalculator.emit]

/-- C6, as the code has it: when the new dimensions differ from the current
ones, `SetFluidSettings` (when `Map` succeeds) stores the new settings and
pushes the general parameter block, and does nothing else: every slot of the
velocity, density, temperature and pressure arrays, the vorticity, divergence
and obstacle buffers, the pressure render targets and the shaders are the
ones held before, and no texture is created. -/
theorem SetFluidSettings_new_dimensions (dev : Device) (hmap : MapsSucceed dev)
    (c : Fluid3DCalculator) (s : FluidSettings)
    (hdim : s.dimensions ≠ c.mFluidSettings.dimensions) :
    ∃ c', SetFluidSettings dev s c = .ok c' ∧
      c'.mFluidSettings = s ∧
      c'.mInputBufferGeneral = some
        ⟨s.timeStep, s.densityBuoyancy, s.densityWeight, s.vorticityStrength⟩ ∧
      c'.log = c.log ++ [.UpdateGeneralBuffer
        ⟨s.timeStep, s.densityBuoyancy, s.densityWeight, s.vorticityStrength⟩] ∧
      c'.mVelocitySP = c.mVelocitySP ∧ c'.mDensitySP = c.mDensitySP ∧
      c'.mTemperatureSP = c.mTemperatureSP ∧ c'.mPressureSP = c.mPressureSP ∧
      c'.mVorticitySP = c.mVorticitySP ∧ c'.mDivergenceSP = c.mDivergenceSP ∧
      c'.mObstacleSP = c.mObstacleSP ∧
      c'.mPressureRenderTargets = c.mPressureRenderTargets ∧
      c'.mShaders = c.mShaders ∧ c'.textures = c.textures :=
  ⟨_, SetFluidSettings_eq_of_differ dev hmap c s (Or.inl hdim),
    rfl, rfl, rfl, rfl, rfl, rfl, rfl, rfl, rfl, rfl, rfl, rfl, rfl⟩

/-- Instance of `SetFluidSettings_new_dimensions`: the initialized example calculator and
a grid of 4 x 4 x 4 cells. -/
theorem SetFluidSettings_new_dimensions_witness :
    MapsSucceed allSucceed ∧
    exampleSettingsNewDimensions.dimensions ≠ initializedCalculator.mFluidSettings.dimensions ∧
    ∃ c', SetFluidSettings allSucceed exampleSettingsNewDimensions initializedCalculator = .ok c' ∧
      c'.mFluidSettings = exampleSettingsNewDimensions ∧
      c'.mInputBufferGeneral = some
        ⟨exampleSettingsNewDimensions.timeStep, exampleSettingsNewDimensions.densityBuoyancy,
          exampleSettingsNewDimensions.densityWeight,
          exampleSettingsNewDimensions.vorticityStrength⟩ ∧
      c'.log = initializedCalculator.log ++ [.UpdateGeneralBuffer
        ⟨exampleSettingsNewDimensions.timeStep, exampleSettingsNewDimensions.densityBuoyancy,
          exampleSettingsNewDimensions.densityWeight,
          exampleSettingsNewDimensions.vorticityStrength⟩] ∧
      c'.mVelocitySP = initializedCalculator.mVelocitySP ∧
      c'.mDensitySP = initializedCalculator.mDensitySP ∧
      c'.mTemperatureSP = initializedCalculator.mTemperatureSP ∧
      c'.mPressureSP = initializedCalculator.mPressureSP ∧
      c'.mVorticitySP = initializedCalculator.mVorticitySP ∧
      c'.mDivergenceSP = initializedCalculator.mDivergenceSP ∧
      c'.mObstacleSP = initializedCalculator.mObstacleSP ∧
      c'.mPressureRenderTargets = initializedCalculator.mPressureRenderTargets ∧
      c'.mShaders = initializedCalculator.mShaders ∧ c'.textures = initializedCalculator.textures :=
  ⟨fun _ => rfl, by decide,
    SetFluidSettings_new_dimensions allSucceed (fun _ => rfl) initializedCalculator
      exampleSettingsNewDimensions (by decide)⟩

/-- C6 fails as stated: `Initialize` succeeds for the example settings, the
new settings have other dimensions, and after `SetFluidSettings` the buffers
held before the call are still in the slots (it is false that none of them
is), and the device holds the same 17 textures of 2 x 2 x 2 cells. -/
theorem SetFluidSettings_no_reallocation :
    (Initialize allSucceed (Fluid3DCalculator.new exampleSettings)).toOption
      = some (true, initializedCalculator) ∧
    exampleSettingsNewDimensions.dimensions ≠ initializedCalculator.mFluidSettings.dimensions ∧
    ∃ c', SetFluidSettings allSucceed exampleSettingsNewDimensions initializedCalculator
        = .ok c' ∧
      ¬ (∀ b ∈ c'.buffers, b ∉ initializedCalculator.buffers) ∧
      c'.mVelocitySP READ = ⟨some 0, some 0⟩ ∧
      initializedCalculator.mVelocitySP READ = ⟨some 0, some 0⟩ ∧
      c'.textures.length = 17 ∧
      c'.textures.map (fun d => (d.Width, d.Height, d.Depth)) = List.replicate 17 (2, 2, 2) := by
  refine ⟨rfl, by decide, _, SetFluidSettings_eq_of_differ allSucceed (fun _ => rfl) _ _
    (Or.inl (by decide)), ?_, ?_, ?_, ?_, ?_⟩
  · decide
  · decide
  · decide
  · decide
  · decide

/-! ## The pressure buffer that is cleared -/

/-- C2 fails on the code: after `Initialize` and one call of `Process` with
`jacobiIterations = 1`, whose Jacobi iteration wrote texture 16, the render
target `mPressureRenderTargets[READ]` is on texture 15 while
`mPressureSP[READ]` views texture 16; the second call of `Process` clears
texture 15 and its Jacobi iteration reads texture 16, the pressure of the
first call, not the cleared texture. -/
theorem Process_clears_other_pressure_buffer :
    (Initialize allSucceed (Fluid3DCalculator.new exampleSettings)).toOption
      = some (true, initializedCalculator) ∧
    initializedCalculator.mFluidSettings.jacobiIterations = 1 ∧
    (∃ t, Process allSucceed initializedCalculator = .ok afterFirstStep ∧
      afterFirstStep.log = initializedCalculator.log ++ t ∧
      clearedTargets t = [some 15] ∧
      jacobiDispatches t =
        [([⟨.pressure READ, ⟨some 15, some 15⟩⟩, ⟨.divergence, ⟨some 14, some 14⟩⟩],
          ⟨.pressure WRITE, ⟨some 16, some 16⟩⟩)]) ∧
    afterFirstStep.mPressureRenderTargets READ = some 15 ∧
    afterFirstStep.mPressureSP READ = ⟨some 16, some 16⟩ ∧
    ∃ s' t, Process allSucceed afterFirstStep = .ok s' ∧ s'.log = afterFirstStep.log ++ t ∧
      clearedTargets t = [some 15] ∧
      jacobiDispatches t =
        [([⟨.pressure READ, ⟨some 16, some 16⟩⟩, ⟨.divergence, ⟨some 14, some 14⟩⟩],
          ⟨.pressure WRITE, ⟨some 15, some 15⟩⟩)] := by
  have h1 : Process allSucceed initializedCalculator = .ok afterFirstStep := rfl
  have e1 : afterFirstStep = processResult initializedCalculator := by
    have h := Process_eq allSucceed (fun _ => rfl) initializedCalculator
    rw [h1] at h
    exact Except.ok.inj h
  refine ⟨rfl, by decide, ⟨processTrace initializedCalculator, h1, by rw [e1]; rfl, ?_, ?_⟩,
    by decide, by decide, processResult afterFirstStep,
    processTrace afterFirstStep, Process_eq allSucceed (fun _ => rfl) _, rfl, ?_, ?_⟩
  · decide
  · decide
  · decide
  · decide

/-! ## Buffer rotation -/

theorem swapSlots_eq_comp {n : Nat} {α : Type} (a : Fin n → α) (i j : Fin n) :
    swapSlots a i j = a ∘ (Equiv.swap i j) := by
  funext k
  simp only [swapSlots, Function.comp, Equiv.swap_apply_def]
  split
  · rfl
  · split <;> rfl

theorem swapSlots_perm {n : Nat} {α : Type} (a : Fin n → α) (i j : Fin n) :
    (List.ofFn (swapSlots a i j)).Perm (List.ofFn a) := by
  rw [swapSlots_eq_comp]
  exact Equiv.Perm.ofFn_comp_perm (Equiv.swap i j) a

theorem rotatePressure_perm (p : Fin 2 → ShaderParams) (k : Nat) :
    (List.ofFn (rotatePressure p k)).Perm (List.ofFn p) := by
  induction k generalizing p with
  | zero => exact List.Perm.refl _
  | succ k ih => exact (ih _).trans (swapSlots_perm p READ WRITE)

/-- C8: `Process` (when no `Map` call fails) neither copies nor creates
buffers: whatever the advection type and the number of Jacobi iterations,
afterwards the slots of the velocity, density, temperature and pressure
arrays hold a permutation of the buffers the same array held before, the
vorticity, divergence and obstacle buffers and the pressure render targets
are the ones held before, and the device holds the same textures.  In
particular, when the buffers of the four arrays are pairwise distinct before
the call, they are so after it. -/
theorem Process_permutes_buffers (dev : Device) (hmap : MapsSucceed dev)
    (s : Fluid3DCalculator) :
    ∃ s', Process dev s = .ok s' ∧
      (List.ofFn s'.mVelocitySP).Perm (List.ofFn s.mVelocitySP) ∧
      (List.ofFn s'.mDensitySP).Perm (List.ofFn s.mDensitySP) ∧
      (List.ofFn s'.mTemperatureSP).Perm (List.ofFn s.mTemperatureSP) ∧
      (List.ofFn s'.mPressureSP).Perm (List.ofFn s.mPressureSP) ∧
      s'.mVorticitySP = s.mVorticitySP ∧ s'.mDivergenceSP = s.mDivergenceSP ∧
      s'.mObstacleSP = s.mObstacleSP ∧
      s'.mPressureRenderTargets = s.mPressureRenderTargets ∧
      s'.textures = s.textures ∧
      (s.rotatingBuffers.Nodup → s'.rotatingBuffers.Nodup) := by
  have hv : (List.ofFn (processResult s).mVelocitySP).Perm (List.ofFn s.mVelocitySP) :=
    (((swapSlots_perm _ _ _).trans (swapSlots_perm _ _ _)).trans (swapSlots_perm _ _ _)).trans
      (swapSlots_perm _ _ _)
  have hd : (List.ofFn (processResult s).mDensitySP).Perm (List.ofFn s.mDensitySP) :=
    (swapSlots_perm _ _ _).trans (swapSlots_perm _ _ _)
  have ht : (List.ofFn (processResult s).mTemperatureSP).Perm (List.ofFn s.mTemperatureSP) :=
    (swapSlots_perm _ _ _).trans (swapSlots_perm _ _ _)
  have hp : (List.ofFn (processResult s).mPressureSP).Perm (List.ofFn s.mPressureSP) :=
    rotatePressure_perm _ _
  refine ⟨processResult s, Process_eq dev hmap s, hv, hd, ht, hp, rfl, rfl, rfl, rfl, rfl, ?_⟩
  intro hn
  have hb : (processResult s).rotatingBuffers.Perm s.rotatingBuffers :=
    ((hv.append hd).append ht).append hp
  exact hb.nodup_iff.mpr hn

/-- Instance of `Process_permutes_buffers`: the initialized example calculator. -/
theorem Process_permutes_buffers_witness :
    MapsSucceed allSucceed ∧
    ∃ s', Process allSucceed initializedCalculator = .ok s' ∧
      (List.ofFn s'.mVelocitySP).Perm (List.ofFn initializedCalculator.mVelocitySP) ∧
      (List.ofFn s'.mDensitySP).Perm (List.ofFn initializedCalculator.mDensitySP) ∧
      (List.ofFn s'.mTemperatureSP).Perm (List.ofFn initializedCalculator.mTemperatureSP) ∧
      (List.ofFn s'.mPressureSP).Perm (List.ofFn initializedCalculator.mPressureSP) ∧
      s'.mVorticitySP = initializedCalculator.mVorticitySP ∧
      s'.mDivergenceSP = initializedCalculator.mDivergenceSP ∧
      s'.mObstacleSP = initializedCalculator.mObstacleSP ∧
      s'.mPressureRenderTargets = initializedCalculator.mPressureRenderTargets ∧
      s'.textures = initializedCalculator.textures ∧
      (initializedCalculator.rotatingBuffers.Nodup → s'.rotatingBuffers.Nodup) :=
  ⟨fun _ => rfl, Process_permutes_buffers allSucceed (fun _ => rfl) initializedCalculator⟩

/-! ## The `READ` slot after each transition -/

theorem runTransitions_append (a b : List Transition) (s : Fluid3DCalculator) :
    runTransitions (a ++ b) s = runTransitions a s >>= runTransitions b := by
  induction a generalizing s with
  | nil => rfl
  | cons T rest ih =>
    simp only [List.cons_append, runTransitions]
    cases T.run s with
    | error e => rfl
    | ok s1 => exact ih s1

theorem runTransitions_jacobi (k : Nat) (s : Fluid3DCalculator) :
    runTransitions (List.replicate k ⟨some .pressure, fun s => .ok (jacobiTransition s)⟩) s
      = .ok (jacobiLoop s k) := by
  induction k generalizing s with
  | zero => rfl
  | succ k ih =>
    simp only [List.replicate_succ, runTransitions, jacobiLoop]
    exact ih _

theorem densityImpulseTransition_eq (dev : Device) (hmap : MapsSucceed dev)
    (s : Fluid3DCalculator) :
    densityImpulseTransition dev s = .ok
      { s with
        mDensitySP := swapSlots s.mDensitySP READ WRITE
        mapCalls := s.mapCalls + 1
        mInputBufferImpulse := some
          ⟨Vector3.mul s.mFluidSettings.dimensions s.mFluidSettings.constantInputPosition,
            s.mFluidSettings.constantInputRadius, s.mFluidSettings.constantDensityAmount⟩
        log := s.log ++
          [ .UpdateImpulseBuffer
              ⟨Vector3.mul s.mFluidSettings.dimensions s.mFluidSettings.constantInputPosition,
                s.mFluidSettings.constantInputRadius, s.mFluidSettings.constantDensityAmount⟩,
            .Compute .Impulse [s.densityArg READ] (s.densityArg WRITE),
            .swap (.density READ) (.density WRITE) ] } := by
  simp [densityImpulseTransition, UpdateImpulseBuffer, hmap _, bind, Except.bind, pure,
    Except.pure, Compute, swapTarget, Fluid3DCalculator.emit, Fluid3DCalculator.setTarget,
    Fluid3DCalculator.densityArg, Fluid3DCalculator.target, Target.place]

theorem temperatureImpulseTransition_eq (dev : Device) (hmap : MapsSucceed dev)
    (s : Fluid3DCalculator) :
    temperatureImpulseTransition dev s = .ok
      { s with
        mTemperatureSP := swapSlots s.mTemperatureSP READ WRITE
        mapCalls := s.mapCalls + 1
        mInputBufferImpulse := some
          ⟨Vector3.mul s.mFluidSettings.dimensions s.mFluidSettings.constantInputPosition,
            s.mFluidSettings.constantInputRadius, s.mFluidSettings.constantTemperature⟩
        log := s.log ++
          [ .UpdateImpulseBuffer
              ⟨Vector3.mul s.mFluidSettings.dimensions s.mFluidSettings.constantInputPosition,
                s.mFluidSettings.constantInputRadius, s.mFluidSettings.constantTemperature⟩,
            .Compute .Impulse [s.temperatureArg READ] (s.temperatureArg WRITE),
            .swap (.temperature READ) (.temperature WRITE) ] } := by
  simp [temperatureImpulseTransition, UpdateImpulseBuffer, hmap _, bind, Except.bind, pure,
    Except.pure, Compute, swapTarget, Fluid3DCalculator.emit, Fluid3DCalculator.setTarget,
    Fluid3DCalculator.temperatureArg, Fluid3DCalculator.target, Target.place]

theorem Process_eq_runTransitions (dev : Device) (hmap : MapsSucceed dev)
    (s : Fluid3DCalculator) :
    Process dev s = runTransitions (transitions dev s.mFluidSettings) s := by
  rw [Process_eq dev hmap, transitions, runTransitions_append, runTransitions_append]
  simp only [runTransitions, Advect_eq dev hmap, densityImpulseTransition_eq dev hmap,
    temperatureImpulseTransition_eq dev hmap, bind, Except.bind, runTransitions_jacobi,
    jacobiLoop_eq]
  simp [bindResources, buoyancyTransition, vorticityTransition, confinementTransition,
    divergenceTransition, clearTransition, subtractGradientTransition, Compute,
    swapTarget, Fluid3DCalculator.emit, Fluid3DCalculator.setTarget,
    Fluid3DCalculator.velocityArg, Fluid3DCalculator.targetArg, Fluid3DCalculator.target,
    Fluid3DCalculator.densityArg, Fluid3DCalculator.temperatureArg,
    Fluid3DCalculator.pressureArg, Fluid3DCalculator.divergenceArg,
    Fluid3DCalculator.vorticityArg, processResult, processTrace, Target.place,
    advectBufferToSwap, advectMaps]
  omega

theorem transition_read_is_written (dev : Device) (hmap : MapsSucceed dev) (st : FluidSettings)
    (T : Transition) (hT : T ∈ transitions dev st) (f : Field) (hf : T.produces = some f)
    (s0 : Fluid3DCalculator) :
    ∃ s1 t out, T.run s0 = .ok s1 ∧ s1.log = s0.log ++ t ∧
      lastDispatchOutput t = some out ∧ out.place.field = f ∧ s1.current f = out.value := by
  simp only [transitions, List.mem_append, List.mem_cons, List.mem_replicate,
    List.mem_singleton, List.not_mem_nil, or_false] at hT
  rcases hT with ((h | h | h | h | h | h | h | h | h | h | h) | ⟨_, h⟩) | h <;> subst h <;>
    simp only [Option.some.injEq, reduceCtorEq] at hf <;> subst hf
  · refine ⟨_, ?_, ⟨.temperature WRITE2, s0.mTemperatureSP WRITE2⟩,
      Advect_eq dev hmap .temperature .NORMAL st.temperatureDissipation s0, ?h1, ?h2, ?h3, ?h4⟩
    case h1 =>
      exact rfl
    case h2 =>
      exact rfl
    case h3 =>
      exact rfl
    case h4 =>
      simp [Fluid3DCalculator.current, Fluid3DCalculator.setTarget, Fluid3DCalculator.target,
        advectBufferToSwap, swapSlots, READ, WRITE2]
  · cases hty : st.advectionType
    · refine ⟨_, ?_, ⟨.density WRITE2, s0.mDensitySP WRITE2⟩,
        Advect_eq dev hmap .density .NORMAL st.densityDissipation s0, ?h1, ?h2, ?h3, ?h4⟩
      case h1 =>
        exact rfl
      case h2 =>
        exact rfl
      case h3 =>
        exact rfl
      case h4 =>
        simp [Fluid3DCalculator.current, Fluid3DCalculator.setTarget,
          Fluid3DCalculator.target, advectBufferToSwap, swapSlots, READ, WRITE2]
    · refine ⟨_, ?_, ⟨.density WRITE, s0.mDensitySP WRITE⟩,
        Advect_eq dev hmap .density .MACCORMARCK st.densityDissipation s0, ?h1, ?h2, ?h3, ?h4⟩
      case h1 =>
        exact rfl
      case h2 =>
        exact rfl
      case h3 =>
        exact rfl
      case h4 =>
        simp [Fluid3DCalculator.current, Fluid3DCalculator.setTarget,
          Fluid3DCalculator.target, advectBufferToSwap, swapSlots, READ, WRITE]
  · refine ⟨_, ?_, ⟨.velocity WRITE2, s0.mVelocitySP WRITE2⟩,
      Advect_eq dev hmap .velocity .NORMAL st.velocityDissipation s0, ?h1, ?h2, ?h3, ?h4⟩
    case h1 =>
      exact rfl
    case h2 =>
      exact rfl
    case h3 =>
      exact rfl
    case h4 =>
      simp [Fluid3DCalculator.current, Fluid3DCalculator.setTarget, Fluid3DCalculator.target,
        advectBufferToSwap, swapSlots, READ, WRITE2]
  · refine ⟨buoyancyTransition s0, ?_, s0.velocityArg WRITE, rfl, ?h1, ?h2, ?h3, ?h4⟩
    case h1 =>
      simp [buoyancyTransition, swapTarget, Compute, Fluid3DCalculator.emit,
        Fluid3DCalculator.setTarget]
      exact rfl
    case h2 =>
      exact rfl
    case h3 =>
      exact rfl
    case h4 =>
      simp [Fluid3DCalculator.current, buoyancyTransition, swapTarget, Compute,
        Fluid3DCalculator.emit, Fluid3DCalculator.setTarget, Fluid3DCalculator.target,
        Fluid3DCalculator.velocityArg, swapSlots, READ, WRITE]
  · refine ⟨_, ?_, s0.densityArg WRITE, densityImpulseTransition_eq dev hmap s0, ?h1, ?h2, ?h3, ?h4⟩
    case h1 =>
      exact rfl
    case h2 =>
      exact rfl
    case h3 =>
      exact rfl
    case h4 =>
      simp [Fluid3DCalculator.current, Fluid3DCalculator.densityArg, swapSlots, READ, WRITE]
  · refine ⟨_, ?_, s0.temperatureArg WRITE, temperatureImpulseTransition_eq dev hmap s0,
      ?h1, ?h2, ?h3, ?h4⟩
    case h1 =>
      exact rfl
    case h2 =>
      exact rfl
    case h3 =>
      exact rfl
    case h4 =>
      simp [Fluid3DCalculator.current, Fluid3DCalculator.temperatureArg, swapSlots, READ,
        WRITE]
  · refine ⟨confinementTransition s0, ?_, s0.velocityArg WRITE, rfl, ?h1, ?h2, ?h3, ?h4⟩
    case h1 =>
      simp [confinementTransition, swapTarget, Compute, Fluid3DCalculator.emit,
        Fluid3DCalculator.setTarget]
      exact rfl
    case h2 =>
      exact rfl
    case h3 =>
      exact rfl
    case h4 =>
      simp [Fluid3DCalculator.current, confinementTransition, swapTarget, Compute,
        Fluid3DCalculator.emit, Fluid3DCalculator.setTarget, Fluid3DCalculator.target,
        Fluid3DCalculator.velocityArg, swapSlots, READ, WRITE]
  · refine ⟨jacobiTransition s0, ?_, s0.pressureArg WRITE, rfl, ?h1, ?h2, ?h3, ?h4⟩
    case h1 =>
      simp [jacobiTransition, swapPressure, Compute, Fluid3DCalculator.emit]
      exact rfl
    case h2 =>
      exact rfl
    case h3 =>
      exact rfl
    case h4 =>
      simp [Fluid3DCalculator.current, jacobiTransition, swapPressure, Compute,
        Fluid3DCalculator.emit, Fluid3DCalculator.pressureArg, swapSlots, READ, WRITE]
  · refine ⟨subtractGradientTransition s0, ?_, s0.velocityArg WRITE, rfl, ?h1, ?h2, ?h3, ?h4⟩
    case h1 =>
      simp [subtractGradientTransition, swapTarget, Compute, Fluid3DCalculator.emit,
        Fluid3DCalculator.setTarget]
      exact rfl
    case h2 =>
      exact rfl
    case h3 =>
      exact rfl
    case h4 =>
      simp [Fluid3DCalculator.current, subtractGradientTransition, swapTarget, Compute,
        Fluid3DCalculator.emit, Fluid3DCalculator.setTarget, Fluid3DCalculator.target,
        Fluid3DCalculator.velocityArg, swapSlots, READ, WRITE]

theorem readsLatest_compute (l : Latest) (pending : Option Arg) (shader : Kernel)
    (inputs : List Arg) (output : Arg) (rest : List Event) :
    readsLatest l pending (.Compute shader inputs output :: rest) =
      if inputs.all l.fresh then readsLatest l (some output) rest else none := rfl

theorem readsLatest_swap (l : Latest) (out : Arg) (a b : Place) (rest : List Event) :
    readsLatest l (some out) (.swap a b :: rest) =
      if out.place = b ∧ a.isReadOf b then readsLatest (l.record b out.value) none rest
      else none := rfl

theorem readsLatest_jacobiTrace (div : ShaderParams) (k : Nat) (p : Fin 2 → ShaderParams)
    (l : Latest) (pending : Option Arg) (shader : Kernel) (inputs : List Arg) (output : Arg)
    (rest : List Event) (h : l.pressure = p READ) :
    readsLatest l pending (jacobiTrace p div k ++ .Compute shader inputs output :: rest) =
      readsLatest { l with pressure := rotatePressure p k READ } none
        (.Compute shader inputs output :: rest) := by
  induction k generalizing p l pending with
  | zero =>
    have hl : ({ l with pressure := rotatePressure p 0 READ } : Latest) = l := by
      cases l
      simp only [rotatePressure] at h ⊢
      simp [h]
    rw [hl]
    simp [jacobiTrace, readsLatest]
  | succ k ih =>
    have hstep := ih (swapSlots p READ WRITE) (l.record (.pressure WRITE) (p WRITE)) none
      (by simp [Latest.record, swapSlots, READ, WRITE])
    have e : jacobiTrace p div (k + 1) ++ .Compute shader inputs output :: rest =
        .Compute .Jacobi [⟨.pressure READ, p READ⟩, ⟨.divergence, div⟩]
            ⟨.pressure WRITE, p WRITE⟩ ::
          .swap (.pressure READ) (.pressure WRITE) ::
          (jacobiTrace (swapSlots p READ WRITE) div k ++ .Compute shader inputs output :: rest) := by
      simp [jacobiTrace]
    have hfresh : ([⟨.pressure READ, p READ⟩, ⟨.divergence, div⟩] : List Arg).all l.fresh
        = true := by
      simp [Latest.fresh, h]
    rw [e, readsLatest_compute, if_pos hfresh, readsLatest_swap]
    rw [if_pos (by simp [Place.isReadOf]), hstep]
    simp [Latest.record, rotatePressure]

/-- C9: `Process` (when no `Map` call fails) is the sequence of the
transitions of the pipeline; each transition that produces a value of a
multi-buffered field (the three advections, buoyancy, the two impulses,
confinement, each Jacobi iteration, subtract-gradient), run from any state,
ends with the `READ` slot of that field holding the buffer its last dispatch
wrote; and in the operations of `Process` every exchange brings into `READ`
the slot the dispatch before it wrote and every dispatch input taken from a
`READ` slot is the buffer most recently brought there, the buffers tracked in
this way being at the end those in the `READ` slots of the calculator. -/
theorem Process_reads_latest (dev : Device) (hmap : MapsSucceed dev) (s : Fluid3DCalculator) :
    Process dev s = runTransitions (transitions dev s.mFluidSettings) s ∧
    (∀ T ∈ transitions dev s.mFluidSettings, ∀ f, T.produces = some f → ∀ s0,
      ∃ s1 t out, T.run s0 = .ok s1 ∧ s1.log = s0.log ++ t ∧
        lastDispatchOutput t = some out ∧ out.place.field = f ∧ s1.current f = out.value) ∧
    ∃ s' t, Process dev s = .ok s' ∧ s'.log = s.log ++ t ∧
      readsLatest s.latest none t = some s'.latest := by
  refine ⟨Process_eq_runTransitions dev hmap s,
    fun T hT f hf s0 => transition_read_is_written dev hmap _ T hT f hf s0,
    processResult s, processTrace s, Process_eq dev hmap s, rfl, ?_⟩
  cases hty : s.mFluidSettings.advectionType <;>
    simp [processTrace, advectTrace, hty, readsLatest, Latest.fresh, Latest.record,
      Place.isReadOf, Fluid3DCalculator.latest, Target.place, readsLatest_jacobiTrace,
      processResult, advectBufferToSwap, swapSlots, READ, WRITE, WRITE2, WRITE3]

/-- Instance of `Process_reads_latest`: the initialized example calculator. -/
theorem Process_reads_latest_witness :
    MapsSucceed allSucceed ∧
    Process allSucceed initializedCalculator
      = runTransitions (transitions allSucceed initializedCalculator.mFluidSettings)
        initializedCalculator ∧
    (∀ T ∈ transitions allSucceed initializedCalculator.mFluidSettings, ∀ f,
      T.produces = some f → ∀ s0,
      ∃ s1 t out, T.run s0 = .ok s1 ∧ s1.log = s0.log ++ t ∧
        lastDispatchOutput t = some out ∧ out.place.field = f ∧ s1.current f = out.value) ∧
    ∃ s' t, Process allSucceed initializedCalculator = .ok s' ∧
      s'.log = initializedCalculator.log ++ t ∧
      readsLatest initializedCalculator.latest none t = some s'.latest :=
  ⟨fun _ => rfl, Process_reads_latest allSucceed (fun _ => rfl) initializedCalculator⟩

/-! ## The volume texture -/

theorem jacobiTrace_no_density_write (p : Fin 2 → ShaderParams) (div : ShaderParams) (k : Nat) :
    (jacobiTrace p div k).filterMap Event.densityWrite = [] := by
  induction k generalizing p with
  | zero => rfl
  | succ k ih =>
    simp only [jacobiTrace, List.filterMap_append, ih, List.append_nil]
    rfl

/-- C10: `GetVolumeTexture` is a function of the calculator alone and
returns the read view in the `READ` slot of the density array; after a call
of `Process` (when no `Map` call fails) that slot holds the buffer written
by the last dispatch of the step that wrote a density buffer, which is the
impulse dispatch on the density, so that `GetVolumeTexture` returns the read
view of the output of that dispatch. -/
theorem GetVolumeTexture_after_Process (dev : Device) (hmap : MapsSucceed dev)
    (s : Fluid3DCalculator) :
    (∀ c : Fluid3DCalculator, GetVolumeTexture c = (c.mDensitySP READ).mSRV) ∧
    ∃ s' t out, Process dev s = .ok s' ∧ s'.log = s.log ++ t ∧
      lastDensityWrite t = some (.Impulse, out) ∧ out.place = .density WRITE ∧
      s'.mDensitySP READ = out.value ∧ GetVolumeTexture s' = out.value.mSRV := by
  refine ⟨fun _ => rfl, processResult s, processTrace s,
    ⟨.density WRITE, swapSlots s.mDensitySP READ
      (advectBufferToSwap s.mFluidSettings.advectionType) WRITE⟩,
    Process_eq dev hmap s, rfl, ?_, rfl, ?_, ?_⟩
  · cases hty : s.mFluidSettings.advectionType <;>
      simp [lastDensityWrite, processTrace, advectTrace, hty, List.filterMap_append,
        List.filterMap_cons, jacobiTrace_no_density_write, Event.densityWrite, Place.field,
        Target.place]
  · simp [processResult, swapSlots, READ, WRITE]
  · simp [GetVolumeTexture, processResult, swapSlots, READ, WRITE]

/-- Instance of `GetVolumeTexture_after_Process`: the initialized example calculator. -/
theorem GetVolumeTexture_after_Process_witness :
    MapsSucceed allSucceed ∧
    (∀ c : Fluid3DCalculator, GetVolumeTexture c = (c.mDensitySP READ).mSRV) ∧
    ∃ s' t out, Process allSucceed initializedCalculator = .ok s' ∧
      s'.log = initializedCalculator.log ++ t ∧
      lastDensityWrite t = some (.Impulse, out) ∧ out.place = .density WRITE ∧
      s'.mDensitySP READ = out.value ∧ GetVolumeTexture s' = out.value.mSRV :=
  ⟨fun _ => rfl, GetVolumeTexture_after_Process allSucceed (fun _ => rfl) initializedCalculator⟩

/-! ## The calculator after initialization -/

theorem forSlots_frame {n : Nat} {α : Type} (f : Fluid3DCalculator → α)
    (body : Fin n → Fluid3DCalculator → Bool × Fluid3DCalculator)
    (hb : ∀ i s, f (body i s).2 = f s) (l : List (Fin n)) (s : Fluid3DCalculator) :
    f (forSlots body l s).2 = f s := by
  induction l generalizing s with
  | nil => rfl
  | cons i rest ih =>
    simp only [forSlots]
    have h1 := hb i s
    rcases h : body i s with ⟨r, s1⟩
    rw [h] at h1
    simp only
    split
    · exact h1
    · rw [ih s1]; exact h1

theorem initTargetSlot_settings (dev : Device) (t : Target) (desc : D3D11_TEXTURE3D_DESC)
    (i : Fin 4) (s : Fluid3DCalculator) :
    (initTargetSlot dev t desc i s).2.mFluidSettings = s.mFluidSettings := by
  simp only [initTargetSlot, CreateTexture3D, createViews]
  cases t <;> split_ifs <;> rfl

theorem initPressureSlot_settings (dev : Device) (desc : D3D11_TEXTURE3D_DESC)
    (i : Fin 2) (s : Fluid3DCalculator) :
    (initPressureSlot dev desc i s).2.mFluidSettings = s.mFluidSettings := by
  simp only [initPressureSlot, CreateTexture3D, createViews]
  split_ifs <;> rfl

theorem initShader_settings (dev : Device) (k : Kernel) (s s1 : Fluid3DCalculator) (r : Bool)
    (h : initShader dev k s = (r, s1)) : s1.mFluidSettings = s.mFluidSettings := by
  simp only [initShader, Prod.mk.injEq] at h
  rw [← h.2]

theorem InitShaders_settings (dev : Device) (s : Fluid3DCalculator) :
    (InitShaders dev s).2.mFluidSettings = s.mFluidSettings := by
  unfold InitShaders
  split
  rename_i r1 s1 h1
  have e1 : s1.mFluidSettings = s.mFluidSettings := initShader_settings dev _ _ _ _ h1
  split
  · exact e1
  split
  rename_i r2 s2 h2
  have e2 : s2.mFluidSettings = s.mFluidSettings :=
    (initShader_settings dev _ _ _ _ h2).trans e1
  split
  · exact e2
  split
  rename_i r3 s3 h3
  have e3 : s3.mFluidSettings = s.mFluidSettings :=
    (initShader_settings dev _ _ _ _ h3).trans e2
  split
  · exact e3
  split
  rename_i r4 s4 h4
  have e4 : s4.mFluidSettings = s.mFluidSettings :=
    (initShader_settings dev _ _ _ _ h4).trans e3
  split
  · exact e4
  split
  rename_i r5 s5 h5
  have e5 : s5.mFluidSettings = s.mFluidSettings :=
    (initShader_settings dev _ _ _ _ h5).trans e4
  split
  · exact e5
  split
  rename_i r6 s6 h6
  have e6 : s6.mFluidSettings = s.mFluidSettings :=
    (initShader_settings dev _ _ _ _ h6).trans e5
  split
  · exact e6
  split
  rename_i r7 s7 h7
  have e7 : s7.mFluidSettings = s.mFluidSettings :=
    (initShader_settings dev _ _ _ _ h7).trans e6
  split
  · exact e7
  split
  rename_i r8 s8 h8
  have e8 : s8.mFluidSettings = s.mFluidSettings :=
    (initShader_settings dev _ _ _ _ h8).trans e7
  split
  · exact e8
  split
  rename_i r9 s9 h9
  have e9 : s9.mFluidSettings = s.mFluidSettings :=
    (initShader_settings dev _ _ _ _ h9).trans e8
  split
  · exact e9
  exact e9

theorem forSlots_cons_true {n : Nat}
    (body : Fin n → Fluid3DCalculator → Bool × Fluid3DCalculator) (i : Fin n)
    (rest : List (Fin n)) (s s' : Fluid3DCalculator)
    (h : forSlots body (i :: rest) s = (true, s')) :
    ∃ s1, body i s = (true, s1) ∧ forSlots body rest s1 = (true, s') := by
  simp only [forSlots] at h
  rcases hb : body i s with ⟨r, s1⟩
  rw [hb] at h
  cases r with
  | false => simp at h
  | true => exact ⟨s1, rfl, by simpa using h⟩

theorem initPressureSlot_true (dev : Device) (desc : D3D11_TEXTURE3D_DESC) (i : Fin 2)
    (s s' : Fluid3DCalculator) (h : initPressureSlot dev desc i s = (true, s')) :
    s' = { s with
      textures := s.textures ++ [desc]
      mPressureSP := setSlot s.mPressureSP i ⟨some s.textures.length, some s.textures.length⟩
      mPressureRenderTargets :=
        setSlot s.mPressureRenderTargets i (some s.textures.length) } := by
  cases h1 : dev.createOk (.CreateTexture3D (.pressure i)) <;>
  cases h2 : dev.createOk (.CreateShaderResourceView (.pressure i)) <;>
  cases h3 : dev.createOk (.CreateUnorderedAccessView (.pressure i)) <;>
  cases h4 : dev.createOk (.CreateRenderTargetView i) <;>
  simp [initPressureSlot, CreateTexture3D, createViews, viewCreated, h1, h2, h3, h4] at h
  exact h.symm

theorem pressureLoop_true (dev : Device) (desc : D3D11_TEXTURE3D_DESC)
    (s s' : Fluid3DCalculator)
    (h : forSlots (initPressureSlot dev desc) (List.finRange 2) s = (true, s')) :
    s'.mFluidSettings = s.mFluidSettings ∧
    ∃ a, s'.mPressureSP READ = ⟨some a, some a⟩ ∧
      s'.mPressureSP WRITE = ⟨some (a + 1), some (a + 1)⟩ ∧
      s'.mPressureRenderTargets READ = some a ∧
      s'.mPressureRenderTargets WRITE = some (a + 1) := by
  have hr : List.finRange 2 = [0, 1] := rfl
  rw [hr] at h
  obtain ⟨s1, h1, h⟩ := forSlots_cons_true _ _ _ _ _ h
  obtain ⟨s2, h2, h⟩ := forSlots_cons_true _ _ _ _ _ h
  have e1 := initPressureSlot_true dev desc 0 s s1 h1
  have e2 := initPressureSlot_true dev desc 1 s1 s2 h2
  simp only [forSlots, Prod.mk.injEq, true_and] at h
  subst h e2 e1
  refine ⟨rfl, s.textures.length, ?_, ?_, ?_, ?_⟩ <;>
    simp [setSlot, READ, WRITE]

theorem forSlots_settings {n : Nat}
    (body : Fin n → Fluid3DCalculator → Bool × Fluid3DCalculator)
    (hb : ∀ i s, (body i s).2.mFluidSettings = s.mFluidSettings) (l : List (Fin n))
    (s s' : Fluid3DCalculator) (r : Bool) (h : forSlots body l s = (r, s')) :
    s'.mFluidSettings = s.mFluidSettings := by
  have e := forSlots_frame (fun c => c.mFluidSettings) body hb l s
  rw [h] at e
  exact e

theorem CreateTexture3D_settings (dev : Device) (p : Place) (desc : D3D11_TEXTURE3D_DESC)
    (s s' : Fluid3DCalculator) (r : Bool) (tex : Option Handle)
    (h : CreateTexture3D dev p desc s = (r, tex, s')) :
    s'.mFluidSettings = s.mFluidSettings := by
  unfold CreateTexture3D at h
  split at h <;> simp only [Prod.mk.injEq] at h <;> rw [← h.2.2]

theorem InitShaderParams_true (dev : Device) (s s' : Fluid3DCalculator)
    (h : InitShaderParams dev s = (true, s')) :
    s'.mFluidSettings = s.mFluidSettings ∧
    ∃ a, s'.mPressureSP READ = ⟨some a, some a⟩ ∧
      s'.mPressureSP WRITE = ⟨some (a + 1), some (a + 1)⟩ ∧
      s'.mPressureRenderTargets READ = some a ∧
      s'.mPressureRenderTargets WRITE = some (a + 1) := by
  unfold InitShaderParams at h
  lift_lets at h
  extract_lets at h
  -- velocity
  split at h
  rename_i r1 s2 h1
  have e2 : s2.mFluidSettings = s.mFluidSettings :=
    (forSlots_settings _ (initTargetSlot_settings dev _ _) _ _ _ _ h1 :)
  split at h
  · simp at h
  -- obstacle
  lift_lets at h
  extract_lets at h
  split at h
  rename_i r3 tex3 s3 h3
  have e3 : s3.mFluidSettings = s.mFluidSettings :=
    (CreateTexture3D_settings dev _ _ _ _ _ _ h3 :).trans e2
  split at h
  · simp at h
  split at h
  rename_i r4 sp4 h4
  lift_lets at h
  extract_lets at h
  split at h
  · simp at h
  -- density
  split at h
  rename_i r5 s5 h5
  have e5 : s5.mFluidSettings = s.mFluidSettings :=
    (forSlots_settings _ (initTargetSlot_settings dev _ _) _ _ _ _ h5 :).trans e3
  lift_lets at h
  extract_lets at h
  split at h
  · simp at h
  -- temperature
  split at h
  rename_i r6 s6 h6
  have e6 : s6.mFluidSettings = s.mFluidSettings :=
    (forSlots_settings _ (initTargetSlot_settings dev _ _) _ _ _ _ h6 :).trans e5
  lift_lets at h
  extract_lets at h
  split at h
  · simp at h
  -- vorticity
  split at h
  rename_i r7 tex7 s7 h7
  have e7 : s7.mFluidSettings = s.mFluidSettings :=
    (CreateTexture3D_settings dev _ _ _ _ _ _ h7 :).trans e6
  split at h
  · simp at h
  split at h
  rename_i r8 sp8 h8
  lift_lets at h
  extract_lets at h
  split at h
  · simp at h
  -- divergence
  split at h
  rename_i r9 tex9 s9 h9
  have e9 : s9.mFluidSettings = s.mFluidSettings :=
    (CreateTexture3D_settings dev _ _ _ _ _ _ h9 :).trans e7
  split at h
  rename_i r10 sp10 h10
  lift_lets at h
  extract_lets at h
  split at h
  · simp at h
  -- pressure
  split at h
  rename_i r11 s11 h11
  split at h
  · simp at h
  rename_i hr11
  have hr : r11 = true := by simpa using hr11
  subst hr
  simp only [Prod.mk.injEq, true_and] at h
  subst h
  obtain ⟨e11, hp⟩ := pressureLoop_true dev _ _ _ h11
  exact ⟨e11.trans e9, hp⟩

theorem InitBuffersAndSamplers_true (dev : Device) (s s' : Fluid3DCalculator)
    (h : InitBuffersAndSamplers dev s = (true, s')) : s' = { s with mSampleState := true } := by
  unfold InitBuffersAndSamplers at h
  split_ifs at h <;> simp only [Prod.mk.injEq, Bool.false_eq_true, false_and, true_and] at h
  exact h.symm

theorem UpdateGeneralBuffer_eq (dev : Device) (hmap : MapsSucceed dev) (s : Fluid3DCalculator) :
    UpdateGeneralBuffer dev s = .ok
      { s with
        mapCalls := s.mapCalls + 1
        mInputBufferGeneral := some
          ⟨s.mFluidSettings.timeStep, s.mFluidSettings.densityBuoyancy,
            s.mFluidSettings.densityWeight, s.mFluidSettings.vorticityStrength⟩
        log := s.log ++ [.UpdateGeneralBuffer
          ⟨s.mFluidSettings.timeStep, s.mFluidSettings.densityBuoyancy,
            s.mFluidSettings.densityWeight, s.mFluidSettings.vorticityStrength⟩] } := by
  simp [UpdateGeneralBuffer, hmap _, Fluid3DCalculator.emit]

theorem Initialize_true (dev : Device) (hmap : MapsSucceed dev) (s s' : Fluid3DCalculator)
    (h : Initialize dev s = .ok (true, s')) :
    s'.mFluidSettings = s.mFluidSettings ∧
    s'.mInputBufferGeneral = some
      ⟨s.mFluidSettings.timeStep, s.mFluidSettings.densityBuoyancy,
        s.mFluidSettings.densityWeight, s.mFluidSettings.vorticityStrength⟩ ∧
    ∃ a, s'.mPressureSP READ = ⟨some a, some a⟩ ∧
      s'.mPressureSP WRITE = ⟨some (a + 1), some (a + 1)⟩ ∧
      s'.mPressureRenderTargets READ = some a ∧
      s'.mPressureRenderTargets WRITE = some (a + 1) := by
  unfold Initialize at h
  split at h
  rename_i r1 s1 h1
  have e1 : s1.mFluidSettings = s.mFluidSettings := by
    have e := InitShaders_settings dev s
    rw [h1] at e
    exact e
  split at h
  · simp at h
  split at h
  rename_i r2 s2 h2
  split at h
  · simp at h
  rename_i hr2
  have hr : r2 = true := by simpa using hr2
  subst hr
  obtain ⟨e2, a, hp⟩ := InitShaderParams_true dev s1 s2 h2
  split at h
  rename_i r3 s3 h3
  split at h
  · simp at h
  rename_i hr3
  have hr : r3 = true := by simpa using hr3
  subst hr
  have e3 := InitBuffersAndSamplers_true dev s2 s3 h3
  subst e3
  rw [UpdateGeneralBuffer_eq dev hmap] at h
  simp only at h
  split at h
  · simp at h
  simp only [Except.ok.injEq, Prod.mk.injEq, true_and] at h
  subst h
  simp only [Compute, Fluid3DCalculator.emit]
  exact ⟨e2.trans e1, by rw [e2, e1], a, hp⟩

/-! ## The general parameter block -/

theorem SetFluidSettings_eq_of_same (dev : Device) (c : Fluid3DCalculator) (s : FluidSettings)
    (hd : ¬ generalFieldsDiffer c.mFluidSettings s) :
    SetFluidSettings dev s c = .ok { c with mFluidSettings := s } := by
  have hflag : ¬ (GetUpdateDirtyFlags c s &&& BufferDirtyFlags.General ≠ 0) := by
    unfold GetUpdateDirtyFlags BufferDirtyFlags.General
    unfold generalFieldsDiffer at hd
    split
    · next h => exact absurd (by tauto) hd
    · simp
  simp only [SetFluidSettings]
  rw [if_neg hflag]

theorem SetFluidSettings_keeps_current (dev : Device) (hmap : MapsSucceed dev)
    (c : Fluid3DCalculator) (s : FluidSettings)
    (hc : c.mInputBufferGeneral = some (generalBlockOf c.mFluidSettings)) :
    ∃ c', SetFluidSettings dev s c = .ok c' ∧ c'.mFluidSettings = s ∧
      c'.mInputBufferGeneral = some (generalBlockOf s) := by
  by_cases hd : generalFieldsDiffer c.mFluidSettings s
  · exact ⟨_, SetFluidSettings_eq_of_differ dev hmap c s hd, rfl, rfl⟩
  · refine ⟨_, SetFluidSettings_eq_of_same dev c s hd, rfl, ?_⟩
    simp only [generalFieldsDiffer, not_or, not_not] at hd
    obtain ⟨-, h1, h2, h3, h4⟩ := hd
    simp only [hc, generalBlockOf, h1, h2, h3, h4]

theorem applySettings_current (dev : Device) (hmap : MapsSucceed dev)
    (calls : List FluidSettings) (c : Fluid3DCalculator)
    (hc : c.mInputBufferGeneral = some (generalBlockOf c.mFluidSettings)) :
    ∃ c', applySettings dev calls c = .ok c' ∧
      c'.mFluidSettings = calls.getLast?.getD c.mFluidSettings ∧
      c'.mInputBufferGeneral = some (generalBlockOf c'.mFluidSettings) := by
  induction calls generalizing c with
  | nil => exact ⟨c, rfl, rfl, hc⟩
  | cons st rest ih =>
    obtain ⟨c1, h1, hs1, hb1⟩ := SetFluidSettings_keeps_current dev hmap c st hc
    obtain ⟨c2, h2, hs2, hb2⟩ := ih c1 (by rw [hb1, hs1])
    refine ⟨c2, ?_, ?_, hb2⟩
    · simp only [applySettings, h1]
      exact h2
    · rw [hs2, hs1]
      cases rest with
      | nil => rfl
      | cons a l =>
        rw [List.getLast?_cons_cons, List.getLast?_eq_getLast (a :: l) (List.cons_ne_nil a l)]
        rfl

/-- C12: when no `Map` call fails, after a successful `Initialize` of a
calculator constructed with the settings `st0`, followed by any finite
sequence of `SetFluidSettings` calls, every call succeeds, `GetFluidSettings`
returns the argument of the last call (`st0` when there was no call), and
the general parameter block holds the time step, density buoyancy, density
weight and vorticity strength of these current settings, whether or not the
last calls pushed the block again. -/
theorem general_block_never_stale (dev : Device) (hmap : MapsSucceed dev)
    (st0 : FluidSettings) (c0 : Fluid3DCalculator)
    (hinit : Initialize dev (Fluid3DCalculator.new st0) = .ok (true, c0))
    (calls : List FluidSettings) :
    ∃ c, applySettings dev calls c0 = .ok c ∧
      GetFluidSettings c = calls.getLast?.getD st0 ∧
      c.mInputBufferGeneral = some
        ⟨(GetFluidSettings c).timeStep, (GetFluidSettings c).densityBuoyancy,
          (GetFluidSettings c).densityWeight, (GetFluidSettings c).vorticityStrength⟩ := by
  obtain ⟨hs0, hb0, -⟩ := Initialize_true dev hmap _ c0 hinit
  have hs0' : c0.mFluidSettings = st0 := hs0
  obtain ⟨c, h, hs, hb⟩ := applySettings_current dev hmap calls c0 (by rw [hb0, hs0']; rfl)
  exact ⟨c, h, by rw [GetFluidSettings, hs, hs0'], hb⟩

/-- Instance of `general_block_never_stale`: the initialized example
calculator, a call that changes the time step and a call that changes only
the constant density amount. -/
theorem general_block_never_stale_witness :
    MapsSucceed allSucceed ∧
    Initialize allSucceed (Fluid3DCalculator.new exampleSettings)
      = .ok (true, initializedCalculator) ∧
    ∃ c, applySettings allSucceed [exampleSettingsNewTimeStep, exampleSettingsNewAmount]
        initializedCalculator = .ok c ∧
      GetFluidSettings c =
        [exampleSettingsNewTimeStep, exampleSettingsNewAmount].getLast?.getD exampleSettings ∧
      c.mInputBufferGeneral = some
        ⟨(GetFluidSettings c).timeStep, (GetFluidSettings c).densityBuoyancy,
          (GetFluidSettings c).densityWeight, (GetFluidSettings c).vorticityStrength⟩ :=
  ⟨fun _ => rfl, rfl,
    general_block_never_stale allSucceed (fun _ => rfl) exampleSettings initializedCalculator rfl
      [exampleSettingsNewTimeStep, exampleSettingsNewAmount]⟩

/-! ## The parity of the pressure slots -/

theorem swapSlots_swapSlots {n : Nat} {α : Type} (a : Fin n → α) (i j : Fin n) :
    swapSlots (swapSlots a i j) i j = a := by
  funext k
  simp only [swapSlots]
  by_cases hi : k = i
  · subst hi
    by_cases hj : j = k
    · subst hj; simp
    · simp [hj]
  · by_cases hj : k = j
    · subst hj; simp [hi]
    · simp [hi, hj]

theorem rotatePressure_eq (p : Fin 2 → ShaderParams) (k : Nat) :
    rotatePressure p k = if k % 2 = 0 then p else swapSlots p READ WRITE := by
  induction k generalizing p with
  | zero => rfl
  | succ k ih =>
    rw [rotatePressure, ih]
    by_cases hk : k % 2 = 0
    · have h1 : (k + 1) % 2 ≠ 0 := by omega
      rw [if_pos hk, if_neg h1]
    · have h1 : (k + 1) % 2 = 0 := by omega
      rw [if_neg hk, if_pos h1, swapSlots_swapSlots]

theorem rotatePressure_add (p : Fin 2 → ShaderParams) (a b : Nat) :
    rotatePressure (rotatePressure p a) b = rotatePressure p (a + b) := by
  induction a generalizing p with
  | zero => simp [rotatePressure]
  | succ a ih =>
    have e : a + 1 + b = (a + b) + 1 := by omega
    rw [rotatePressure, ih, e, rotatePressure]

theorem toNat_odd_iff (n : Int) : n.toNat % 2 = 1 ↔ 0 < n ∧ Odd n := by
  rw [Int.odd_iff]
  omega

theorem positiveIterations_eq (steps : List FluidSettings) :
    positiveIterations steps = ((steps.map fun st => st.jacobiIterations.toNat).sum : Nat) := by
  induction steps with
  | nil => rfl
  | cons st rest ih =>
    unfold positiveIterations at ih ⊢
    simp only [List.map_cons, List.sum_cons, Nat.cast_add]
    rw [← ih]
    by_cases h : 0 < st.jacobiIterations
    · rw [List.filter_cons_of_pos (by simpa using h), List.sum_cons]
      congr 1
      omega
    · rw [List.filter_cons_of_neg (by simpa using h)]
      have : (st.jacobiIterations.toNat : Int) = 0 := by omega
      rw [this, zero_add]

theorem SetFluidSettings_frame (dev : Device) (hmap : MapsSucceed dev)
    (c : Fluid3DCalculator) (s : FluidSettings) :
    ∃ c', SetFluidSettings dev s c = .ok c' ∧ c'.mFluidSettings = s ∧
      c'.mPressureSP = c.mPressureSP ∧
      c'.mPressureRenderTargets = c.mPressureRenderTargets := by
  by_cases hd : generalFieldsDiffer c.mFluidSettings s
  · exact ⟨_, SetFluidSettings_eq_of_differ dev hmap c s hd, rfl, rfl, rfl⟩
  · exact ⟨_, SetFluidSettings_eq_of_same dev c s hd, rfl, rfl, rfl⟩

theorem runSteps_pressure (dev : Device) (hmap : MapsSucceed dev)
    (steps : List FluidSettings) (s : Fluid3DCalculator) :
    ∃ s', runSteps dev steps s = .ok s' ∧
      s'.mPressureSP = rotatePressure s.mPressureSP
        (steps.map fun st => st.jacobiIterations.toNat).sum ∧
      s'.mPressureRenderTargets = s.mPressureRenderTargets := by
  induction steps generalizing s with
  | nil => exact ⟨s, rfl, rfl, rfl⟩
  | cons st rest ih =>
    obtain ⟨s1, h1, hs1, hp1, hr1⟩ := SetFluidSettings_frame dev hmap s st
    obtain ⟨s2, h2, hp2, hr2⟩ := ih (processResult s1)
    refine ⟨s2, ?_, ?_, ?_⟩
    · simp only [runSteps, h1, Process_eq dev hmap, bind, Except.bind]
      exact h2
    · rw [hp2]
      simp only [processResult, hs1, hp1, List.map_cons, List.sum_cons, rotatePressure_add]
    · rw [hr2]
      exact hr1

theorem CalculatePressureGradient_pressure (s : Fluid3DCalculator) :
    (CalculatePressureGradient s).mPressureSP =
      if 0 < s.mFluidSettings.jacobiIterations ∧ Odd s.mFluidSettings.jacobiIterations then
        swapSlots s.mPressureSP READ WRITE
      else s.mPressureSP := by
  rw [CalculatePressureGradient_eq]
  simp only [rotatePressure_eq]
  by_cases h : 0 < s.mFluidSettings.jacobiIterations ∧ Odd s.mFluidSettings.jacobiIterations
  · have h1 : ¬ s.mFluidSettings.jacobiIterations.toNat % 2 = 0 := by
      have := (toNat_odd_iff _).mpr h
      omega
    rw [if_pos h, if_neg h1]
  · have h1 : s.mFluidSettings.jacobiIterations.toNat % 2 = 0 := by
      have := (toNat_odd_iff s.mFluidSettings.jacobiIterations).not.mpr h
      omega
    rw [if_neg h, if_pos h1]

/-- C13: for every integer `jacobiIterations = n`, `CalculatePressureGradient`
leaves `mPressureSP[READ]` and `mPressureSP[WRITE]` exchanged when `n` is
positive and odd and as they were otherwise (so, for two different buffers,
exchanged exactly when `n` is positive and odd); for `n ≤ 0` it only clears
and dispatches nothing.  `CalculatePressureGradient`, `Process` and
`SetFluidSettings` leave `mPressureRenderTargets` as it is.  After a
successful `Initialize`, the two pressure slots hold different buffers and
`mPressureSP[READ]` views the texture of `mPressureRenderTargets[READ]`;
after any sequence of steps run from there (when no `Map` call fails),
`mPressureSP[READ]` views the texture of `mPressureRenderTargets[READ]`
exactly when the sum of the positive iteration counts of the steps is even. -/
theorem pressure_slots_parity (dev : Device) (hmap : MapsSucceed dev)
    (st0 : FluidSettings) (s0 : Fluid3DCalculator)
    (hinit : Initialize dev (Fluid3DCalculator.new st0) = .ok (true, s0))
    (steps : List FluidSettings) :
    (∀ s : Fluid3DCalculator,
      (0 < s.mFluidSettings.jacobiIterations ∧ Odd s.mFluidSettings.jacobiIterations →
        (CalculatePressureGradient s).mPressureSP = swapSlots s.mPressureSP READ WRITE) ∧
      (¬ (0 < s.mFluidSettings.jacobiIterations ∧ Odd s.mFluidSettings.jacobiIterations) →
        (CalculatePressureGradient s).mPressureSP = s.mPressureSP) ∧
      (s.mPressureSP READ ≠ s.mPressureSP WRITE →
        ((CalculatePressureGradient s).mPressureSP = swapSlots s.mPressureSP READ WRITE ↔
          0 < s.mFluidSettings.jacobiIterations ∧ Odd s.mFluidSettings.jacobiIterations)) ∧
      (s.mFluidSettings.jacobiIterations ≤ 0 →
        (CalculatePressureGradient s).log =
          s.log ++ [.ClearRenderTargetView (s.mPressureRenderTargets READ)]) ∧
      (CalculatePressureGradient s).mPressureRenderTargets = s.mPressureRenderTargets) ∧
    (∀ s s', Process dev s = .ok s' →
      s'.mPressureRenderTargets = s.mPressureRenderTargets) ∧
    (∀ st s s', SetFluidSettings dev st s = .ok s' →
      s'.mPressureRenderTargets = s.mPressureRenderTargets) ∧
    s0.mPressureSP READ ≠ s0.mPressureSP WRITE ∧
    (s0.mPressureSP READ).mSRV = s0.mPressureRenderTargets READ ∧
    ∃ s, runSteps dev steps s0 = .ok s ∧
      s.mPressureRenderTargets = s0.mPressureRenderTargets ∧
      ((s.mPressureSP READ).mSRV = s.mPressureRenderTargets READ ↔
        Even (positiveIterations steps)) := by
  obtain ⟨-, -, a, hR, hW, hrR, hrW⟩ := Initialize_true dev hmap _ s0 hinit
  refine ⟨fun s => ⟨?_, ?_, ?_, ?_, ?_⟩, ?_, ?_, ?_, ?_, ?_⟩
  · intro h
    rw [CalculatePressureGradient_pressure, if_pos h]
  · intro h
    rw [CalculatePressureGradient_pressure, if_neg h]
  · intro hne
    rw [CalculatePressureGradient_pressure]
    constructor
    · intro h
      by_contra hn
      rw [if_neg hn] at h
      apply hne
      have := congrFun h READ
      simpa [swapSlots, READ, WRITE] using this
    · intro h
      rw [if_pos h]
  · intro hn
    have h0 : s.mFluidSettings.jacobiIterations.toNat = 0 := by omega
    rw [CalculatePressureGradient_eq, h0]
    rfl
  · rw [CalculatePressureGradient_eq]
  · intro s s' h
    rw [Process_eq dev hmap] at h
    rw [← Except.ok.inj h]
    rfl
  · intro st s s' h
    obtain ⟨c', hc, -, -, hr⟩ := SetFluidSettings_frame dev hmap s st
    rw [hc] at h
    rw [← Except.ok.inj h]
    exact hr
  · rw [hR, hW]
    simp
  · rw [hR, hrR]
  · obtain ⟨s, hs, hp, hr⟩ := runSteps_pressure dev hmap steps s0
    refine ⟨s, hs, hr, ?_⟩
    rw [hp, hr, hrR, rotatePressure_eq, positiveIterations_eq, Int.even_coe_nat,
      Nat.even_iff]
    by_cases hk : (steps.map fun st => st.jacobiIterations.toNat).sum % 2 = 0
    · rw [if_pos hk, hR]
      simp [hk]
    · rw [if_neg hk]
      have : swapSlots s0.mPressureSP READ WRITE READ = s0.mPressureSP WRITE := by
        simp [swapSlots, READ, WRITE]
      rw [this, hW]
      simp [hk]

/-- Instance of `pressure_slots_parity`: the initialized example calculator
and three steps with 1, 2 and -3 Jacobi iterations. -/
theorem pressure_slots_parity_witness :
    MapsSucceed allSucceed ∧
    Initialize allSucceed (Fluid3DCalculator.new exampleSettings)
      = .ok (true, initializedCalculator) ∧
    (∀ s : Fluid3DCalculator,
      (0 < s.mFluidSettings.jacobiIterations ∧ Odd s.mFluidSettings.jacobiIterations →
        (CalculatePressureGradient s).mPressureSP = swapSlots s.mPressureSP READ WRITE) ∧
      (¬ (0 < s.mFluidSettings.jacobiIterations ∧ Odd s.mFluidSettings.jacobiIterations) →
        (CalculatePressureGradient s).mPressureSP = s.mPressureSP) ∧
      (s.mPressureSP READ ≠ s.mPressureSP WRITE →
        ((CalculatePressureGradient s).mPressureSP = swapSlots s.mPressureSP READ WRITE ↔
          0 < s.mFluidSettings.jacobiIterations ∧ Odd s.mFluidSettings.jacobiIterations)) ∧
      (s.mFluidSettings.jacobiIterations ≤ 0 →
        (CalculatePressureGradient s).log =
          s.log ++ [.ClearRenderTargetView (s.mPressureRenderTargets READ)]) ∧
      (CalculatePressureGradient s).mPressureRenderTargets = s.mPressureRenderTargets) ∧
    (∀ s s', Process allSucceed s = .ok s' →
      s'.mPressureRenderTargets = s.mPressureRenderTargets) ∧
    (∀ st s s', SetFluidSettings allSucceed st s = .ok s' →
      s'.mPressureRenderTargets = s.mPressureRenderTargets) ∧
    initializedCalculator.mPressureSP READ ≠ initializedCalculator.mPressureSP WRITE ∧
    (initializedCalculator.mPressureSP READ).mSRV
      = initializedCalculator.mPressureRenderTargets READ ∧
    ∃ s, runSteps allSucceed
        [exampleSettings, exampleSettingsTwoIterations, exampleSettingsNoIterations]
        initializedCalculator = .ok s ∧
      s.mPressureRenderTargets = initializedCalculator.mPressureRenderTargets ∧
      ((s.mPressureSP READ).mSRV = s.mPressureRenderTargets READ ↔
        Even (positiveIterations
          [exampleSettings, exampleSettingsTwoIterations, exampleSettingsNoIterations])) :=
  ⟨fun _ => rfl, rfl,
    pressure_slots_parity allSucceed (fun _ => rfl) exampleSettings initializedCalculator rfl
      [exampleSettings, exampleSettingsTwoIterations, exampleSettingsNoIterations]⟩

/-! ## Failures during initialization -/

theorem not_not_eq_true (r : Bool) (h : ¬ (!r) = true) : r = true := by
  cases r with
  | false => exact absurd rfl h
  | true => rfl

theorem initShader_result (dev : Device) (k : Kernel) (s s1 : Fluid3DCalculator) (r : Bool)
    (h : initShader dev k s = (r, s1)) : dev.createOk (.ShaderInitialize k) = r := by
  simp only [initShader, Prod.mk.injEq] at h
  exact h.1

theorem forSlots_true_all {n : Nat}
    (body : Fin n → Fluid3DCalculator → Bool × Fluid3DCalculator) (l : List (Fin n))
    (s s' : Fluid3DCalculator) (h : forSlots body l s = (true, s')) :
    ∀ i ∈ l, ∃ s0 s1, body i s0 = (true, s1) := by
  induction l generalizing s with
  | nil => intro i hi; cases hi
  | cons j rest ih =>
    obtain ⟨s1, h1, h2⟩ := forSlots_cons_true body j rest s s' h
    intro i hi
    rcases List.mem_cons.mp hi with rfl | hi
    · exact ⟨s, s1, h1⟩
    · exact ih s1 h2 i hi

theorem initTargetSlot_created (dev : Device) (t : Target) (desc : D3D11_TEXTURE3D_DESC)
    (i : Fin 4) (s s' : Fluid3DCalculator) (h : initTargetSlot dev t desc i s = (true, s')) :
    dev.createOk (.CreateTexture3D (t.place i)) = true ∧
    dev.createOk (.CreateShaderResourceView (t.place i)) = true ∧
    dev.createOk (.CreateUnorderedAccessView (t.place i)) = true := by
  cases h1 : dev.createOk (.CreateTexture3D (t.place i)) <;>
  cases h2 : dev.createOk (.CreateShaderResourceView (t.place i)) <;>
  cases h3 : dev.createOk (.CreateUnorderedAccessView (t.place i)) <;>
  simp [initTargetSlot, CreateTexture3D, createViews, viewCreated, h1, h2, h3] at h ⊢

theorem initPressureSlot_created (dev : Device) (desc : D3D11_TEXTURE3D_DESC) (i : Fin 2)
    (s s' : Fluid3DCalculator) (h : initPressureSlot dev desc i s = (true, s')) :
    dev.createOk (.CreateTexture3D (.pressure i)) = true ∧
    dev.createOk (.CreateShaderResourceView (.pressure i)) = true ∧
    dev.createOk (.CreateUnorderedAccessView (.pressure i)) = true ∧
    dev.createOk (.CreateRenderTargetView i) = true := by
  cases h1 : dev.createOk (.CreateTexture3D (.pressure i)) <;>
  cases h2 : dev.createOk (.CreateShaderResourceView (.pressure i)) <;>
  cases h3 : dev.createOk (.CreateUnorderedAccessView (.pressure i)) <;>
  cases h4 : dev.createOk (.CreateRenderTargetView i) <;>
  simp [initPressureSlot, CreateTexture3D, createViews, viewCreated, h1, h2, h3, h4] at h ⊢

theorem CreateTexture3D_result (dev : Device) (p : Place) (desc : D3D11_TEXTURE3D_DESC)
    (s s' : Fluid3DCalculator) (r : Bool) (tex : Option Handle)
    (h : CreateTexture3D dev p desc s = (r, tex, s')) :
    dev.createOk (.CreateTexture3D p) = r ∧ tex.isSome = r := by
  cases h1 : dev.createOk (.CreateTexture3D p) <;>
    simp only [CreateTexture3D, h1, Prod.mk.injEq, if_true, if_false, Bool.false_eq_true] at h <;>
    obtain ⟨rfl, rfl, -⟩ := h <;> exact ⟨rfl, rfl⟩

theorem createViews_true (dev : Device) (p : Place) (tex : Option Handle)
    (sp sp' : ShaderParams) (h : createViews dev p tex sp = (true, sp')) :
    tex.isSome = true ∧ dev.createOk (.CreateShaderResourceView p) = true ∧
    dev.createOk (.CreateUnorderedAccessView p) = true := by
  cases h1 : dev.createOk (.CreateShaderResourceView p) <;>
  cases h2 : dev.createOk (.CreateUnorderedAccessView p) <;>
  cases h3 : tex.isSome <;>
  simp [createViews, viewCreated, h1, h2, h3] at h ⊢

theorem InitBuffersAndSamplers_created (dev : Device) (s s' : Fluid3DCalculator)
    (h : InitBuffersAndSamplers dev s = (true, s')) :
    (∀ b, dev.createOk (.BuildDynamicBuffer b) = true) ∧
    dev.createOk .CreateSamplerState = true := by
  cases h1 : dev.createOk (.BuildDynamicBuffer .General) <;>
  cases h2 : dev.createOk (.BuildDynamicBuffer .Advection) <;>
  cases h3 : dev.createOk (.BuildDynamicBuffer .Impulse) <;>
  cases h4 : dev.createOk .CreateSamplerState <;>
  simp [InitBuffersAndSamplers, h1, h2, h3, h4] at h ⊢
  intro b
  cases b <;> assumption

theorem InitShaders_created (dev : Device) (s s' : Fluid3DCalculator)
    (h : InitShaders dev s = (true, s')) :
    ∀ k, k ≠ .Obstacle → dev.createOk (.ShaderInitialize k) = true := by
  unfold InitShaders at h
  split at h
  rename_i r1 s1 h1
  split at h
  · simp at h
  rename_i n1
  have c1 : dev.createOk (.ShaderInitialize .Advection) = true :=
    (initShader_result dev _ _ _ _ h1).trans (not_not_eq_true _ n1)
  split at h
  rename_i r2 s2 h2
  split at h
  · simp at h
  rename_i n2
  have c2 : dev.createOk (.ShaderInitialize .MacCormarckAdvection) = true :=
    (initShader_result dev _ _ _ _ h2).trans (not_not_eq_true _ n2)
  split at h
  rename_i r3 s3 h3
  split at h
  · simp at h
  rename_i n3
  have c3 : dev.createOk (.ShaderInitialize .Impulse) = true :=
    (initShader_result dev _ _ _ _ h3).trans (not_not_eq_true _ n3)
  split at h
  rename_i r4 s4 h4
  split at h
  · simp at h
  rename_i n4
  have c4 : dev.createOk (.ShaderInitialize .Vorticity) = true :=
    (initShader_result dev _ _ _ _ h4).trans (not_not_eq_true _ n4)
  split at h
  rename_i r5 s5 h5
  split at h
  · simp at h
  rename_i n5
  have c5 : dev.createOk (.ShaderInitialize .Confinement) = true :=
    (initShader_result dev _ _ _ _ h5).trans (not_not_eq_true _ n5)
  split at h
  rename_i r6 s6 h6
  split at h
  · simp at h
  rename_i n6
  have c6 : dev.createOk (.ShaderInitialize .Jacobi) = true :=
    (initShader_result dev _ _ _ _ h6).trans (not_not_eq_true _ n6)
  split at h
  rename_i r7 s7 h7
  split at h
  · simp at h
  rename_i n7
  have c7 : dev.createOk (.ShaderInitialize .Divergence) = true :=
    (initShader_result dev _ _ _ _ h7).trans (not_not_eq_true _ n7)
  split at h
  rename_i r8 s8 h8
  split at h
  · simp at h
  rename_i n8
  have c8 : dev.createOk (.ShaderInitialize .SubtractGradient) = true :=
    (initShader_result dev _ _ _ _ h8).trans (not_not_eq_true _ n8)
  split at h
  rename_i r9 s9 h9
  split at h
  · simp at h
  rename_i n9
  have c9 : dev.createOk (.ShaderInitialize .Buoyancy) = true :=
    (initShader_result dev _ _ _ _ h9).trans (not_not_eq_true _ n9)
  intro k hk
  cases k <;> first | assumption | exact absurd rfl hk

theorem InitShaderParams_created (dev : Device) (s s' : Fluid3DCalculator)
    (h : InitShaderParams dev s = (true, s')) :
    (∀ p, dev.createOk (.CreateTexture3D p) = true) ∧
    (∀ p, dev.createOk (.CreateShaderResourceView p) = true) ∧
    (∀ p, dev.createOk (.CreateUnorderedAccessView p) = true) ∧
    (∀ i, dev.createOk (.CreateRenderTargetView i) = true) := by
  unfold InitShaderParams at h
  lift_lets at h
  extract_lets at h
  -- velocity
  split at h
  rename_i r1 s2 h1
  split at h
  · simp at h
  rename_i n1
  have t1 := not_not_eq_true _ n1
  subst t1
  have cVel : ∀ i : Fin 4, dev.createOk (.CreateTexture3D (.velocity i)) = true ∧
      dev.createOk (.CreateShaderResourceView (.velocity i)) = true ∧
      dev.createOk (.CreateUnorderedAccessView (.velocity i)) = true := by
    intro i
    obtain ⟨a, b, hab⟩ := forSlots_true_all _ _ _ _ h1 i (List.mem_finRange i)
    exact initTargetSlot_created dev .velocity _ i a b hab
  -- obstacle
  lift_lets at h
  extract_lets at h
  split at h
  rename_i r3 tex3 s3 h3
  split at h
  · simp at h
  rename_i n3
  have cObsT : dev.createOk (.CreateTexture3D .obstacle) = true :=
    (CreateTexture3D_result dev _ _ _ _ _ _ h3).1.trans (not_not_eq_true _ n3)
  split at h
  rename_i r4 sp4 h4
  lift_lets at h
  extract_lets at h
  split at h
  · simp at h
  rename_i n4
  have t4 := not_not_eq_true _ n4
  subst t4
  have cObsV := createViews_true dev _ _ _ _ h4
  -- density
  split at h
  rename_i r5 s5 h5
  lift_lets at h
  extract_lets at h
  split at h
  · simp at h
  rename_i n5
  have t5 := not_not_eq_true _ n5
  subst t5
  have cDen : ∀ i : Fin 4, dev.createOk (.CreateTexture3D (.density i)) = true ∧
      dev.createOk (.CreateShaderResourceView (.density i)) = true ∧
      dev.createOk (.CreateUnorderedAccessView (.density i)) = true := by
    intro i
    obtain ⟨a, b, hab⟩ := forSlots_true_all _ _ _ _ h5 i (List.mem_finRange i)
    exact initTargetSlot_created dev .density _ i a b hab
  -- temperature
  split at h
  rename_i r6 s6 h6
  lift_lets at h
  extract_lets at h
  split at h
  · simp at h
  rename_i n6
  have t6 := not_not_eq_true _ n6
  subst t6
  have cTem : ∀ i : Fin 4, dev.createOk (.CreateTexture3D (.temperature i)) = true ∧
      dev.createOk (.CreateShaderResourceView (.temperature i)) = true ∧
      dev.createOk (.CreateUnorderedAccessView (.temperature i)) = true := by
    intro i
    obtain ⟨a, b, hab⟩ := forSlots_true_all _ _ _ _ h6 i (List.mem_finRange i)
    exact initTargetSlot_created dev .temperature _ i a b hab
  -- vorticity
  split at h
  rename_i r7 tex7 s7 h7
  split at h
  · simp at h
  rename_i n7
  have cVorT : dev.createOk (.CreateTexture3D .vorticity) = true :=
    (CreateTexture3D_result dev _ _ _ _ _ _ h7).1.trans (not_not_eq_true _ n7)
  split at h
  rename_i r8 sp8 h8
  lift_lets at h
  extract_lets at h
  split at h
  · simp at h
  rename_i n8
  have t8 := not_not_eq_true _ n8
  subst t8
  have cVorV := createViews_true dev _ _ _ _ h8
  -- divergence: the texture exists because the creation of its views succeeded
  split at h
  rename_i r9 tex9 s9 h9
  split at h
  rename_i r10 sp10 h10
  lift_lets at h
  extract_lets at h
  split at h
  · simp at h
  rename_i n10
  have t10 := not_not_eq_true _ n10
  subst t10
  have cDivV := createViews_true dev _ _ _ _ h10
  have cDivT : dev.createOk (.CreateTexture3D .divergence) = true := by
    obtain ⟨e1, e2⟩ := CreateTexture3D_result dev _ _ _ _ _ _ h9
    rw [e1, ← e2]
    exact cDivV.1
  -- pressure
  split at h
  rename_i r11 s11 h11
  split at h
  · simp at h
  rename_i n11
  have t11 := not_not_eq_true _ n11
  subst t11
  have cPre : ∀ i : Fin 2, dev.createOk (.CreateTexture3D (.pressure i)) = true ∧
      dev.createOk (.CreateShaderResourceView (.pressure i)) = true ∧
      dev.createOk (.CreateUnorderedAccessView (.pressure i)) = true ∧
      dev.createOk (.CreateRenderTargetView i) = true := by
    intro i
    obtain ⟨a, b, hab⟩ := forSlots_true_all _ _ _ _ h11 i (List.mem_finRange i)
    exact initPressureSlot_created dev _ i a b hab
  refine ⟨?_, ?_, ?_, fun i => (cPre i).2.2.2⟩
  · intro p
    cases p with
    | velocity i => exact (cVel i).1
    | density i => exact (cDen i).1
    | temperature i => exact (cTem i).1
    | pressure i => exact (cPre i).1
    | vorticity => exact cVorT
    | divergence => exact cDivT
    | obstacle => exact cObsT
  · intro p
    cases p with
    | velocity i => exact (cVel i).2.1
    | density i => exact (cDen i).2.1
    | temperature i => exact (cTem i).2.1
    | pressure i => exact (cPre i).2.1
    | vorticity => exact cVorV.2.1
    | divergence => exact cDivV.2.1
    | obstacle => exact cObsV.2.1
  · intro p
    cases p with
    | velocity i => exact (cVel i).2.2
    | density i => exact (cDen i).2.2
    | temperature i => exact (cTem i).2.2
    | pressure i => exact (cPre i).2.2.1
    | vorticity => exact cVorV.2.2
    | divergence => exact cDivV.2.2
    | obstacle => exact cObsV.2.2

theorem Initialize_created (dev : Device) (s s' : Fluid3DCalculator)
    (h : Initialize dev s = .ok (true, s')) : ∀ call, dev.createOk call = true := by
  unfold Initialize at h
  split at h
  rename_i r1 s1 h1
  split at h
  · simp at h
  rename_i n1
  have t1 := not_not_eq_true _ n1
  subst t1
  have cShaders := InitShaders_created dev s s1 h1
  split at h
  rename_i r2 s2 h2
  split at h
  · simp at h
  rename_i n2
  have t2 := not_not_eq_true _ n2
  subst t2
  obtain ⟨cTex, cSrv, cUav, cRtv⟩ := InitShaderParams_created dev s1 s2 h2
  split at h
  rename_i r3 s3 h3
  split at h
  · simp at h
  rename_i n3
  have t3 := not_not_eq_true _ n3
  subst t3
  obtain ⟨cBuf, cSam⟩ := InitBuffersAndSamplers_created dev s2 s3 h3
  split at h
  · simp at h
  simp only at h
  split at h
  · simp at h
  rename_i n4
  have cObstacle : dev.createOk (.ShaderInitialize .Obstacle) = true :=
    not_not_eq_true _ n4
  intro call
  cases call with
  | ShaderInitialize k =>
    by_cases hk : k = .Obstacle
    · subst hk; exact cObstacle
    · exact cShaders k hk
  | CreateTexture3D p => exact cTex p
  | CreateShaderResourceView p => exact cSrv p
  | CreateUnorderedAccessView p => exact cUav p
  | CreateRenderTargetView i => exact cRtv i
  | BuildDynamicBuffer b => exact cBuf b
  | CreateSamplerState => exact cSam

theorem Initialize_returns (dev : Device) (hmap : MapsSucceed dev) (s : Fluid3DCalculator) :
    ∃ b s', Initialize dev s = .ok (b, s') := by
  unfold Initialize
  split
  split
  · exact ⟨_, _, rfl⟩
  split
  split
  · exact ⟨_, _, rfl⟩
  split
  split
  · exact ⟨_, _, rfl⟩
  rw [UpdateGeneralBuffer_eq dev hmap]
  simp only
  split
  · exact ⟨_, _, rfl⟩
  · exact ⟨_, _, rfl⟩

/-- C7: `Initialize` returns true only if every resource-creation call
succeeded: each `CreateTexture3D` (the divergence texture included, whose
failure shows in the creation of its views), `CreateShaderResourceView`,
`CreateUnorderedAccessView`, `CreateRenderTargetView`, constant-buffer build,
`CreateSamplerState` and shader `Initialize`.  When one of them fails,
`Initialize` returns false, provided `Map` does not fail. -/
theorem Initialize_true_only_if_created (dev : Device) (s : Fluid3DCalculator) :
    (∀ s', Initialize dev s = .ok (true, s') → ∀ call, dev.createOk call = true) ∧
    (∀ call, dev.createOk call = false → MapsSucceed dev →
      ∃ s', Initialize dev s = .ok (false, s')) := by
  refine ⟨fun s' h => Initialize_created dev s s' h, ?_⟩
  intro call hcall hmap
  obtain ⟨b, s', h⟩ := Initialize_returns dev hmap s
  cases b with
  | false => exact ⟨s', h⟩
  | true =>
    have := Initialize_created dev s s' h call
    rw [hcall] at this
    exact absurd this (by decide)

/-- Instance of `Initialize_true_only_if_created`: on a device on which every
call succeeds `Initialize` returns true for the example settings, and on a
device on which only the creation of the divergence texture fails it returns
false. -/
theorem Initialize_true_only_if_created_witness :
    Initialize allSucceed (Fluid3DCalculator.new exampleSettings)
      = .ok (true, initializedCalculator) ∧
    (∀ call, allSucceed.createOk call = true) ∧
    divergenceTextureFails.createOk (.CreateTexture3D .divergence) = false ∧
    MapsSucceed divergenceTextureFails ∧
    ∃ s', Initialize divergenceTextureFails (Fluid3DCalculator.new exampleSettings)
      = .ok (false, s') :=
  ⟨rfl,
    (Initialize_true_only_if_created allSucceed (Fluid3DCalculator.new exampleSettings)).1
      initializedCalculator rfl,
    by decide, fun _ => rfl,
    (Initialize_true_only_if_created divergenceTextureFails
      (Fluid3DCalculator.new exampleSettings)).2 (.CreateTexture3D .divergence) (by decide)
      (fun _ => rfl)⟩

end Fluid3D
